import Mathlib

/-!
Shallow embedding of the parameter resolution engine of
`src/parameters/vehicle_parameters.{hpp,cpp}` (namespace `velox::models`).

Modelling choices:
* YAML documents (`YAML::Node` trees) are modelled by the inductive `Yaml`:
  `num v` is a scalar whose text converts to `double` (doubles are modelled
  by `Rat`, exact, since the engine only copies values and never computes
  with them); `str s` is any node on which `as<double>()` fails (a
  non-numeric scalar, a null value, or a sequence — the engine treats all
  of these identically: key lookup on them is undefined and conversion
  throws); `map es` is a mapping, as an association list (yaml-cpp
  `operator[]` returns the first match).
* C++ exceptions become `Except LoadError`.  `LoadError.fileNotFound`
  carries the exact `std::runtime_error` message built in
  `setup_vehicle_parameters`; `parseFailure` stands for a
  `YAML::ParserException` from `YAML::LoadFile`; `badConversion k` stands
  for the `YAML::TypedBadConversion` thrown by `node[k].as<double>()` —
  the carried key identifies the offending field (the C++ exception
  identifies it by its source mark).
* The filesystem is a parameter: `FileSystem.file_exists` models
  `fs::exists` and `FileSystem.load_file` models `YAML::LoadFile`
  (returning the parsed tree, or a parse error).
* `std::filesystem::path::operator/` followed by `.string()` is modelled
  on POSIX by `pathAppend`.
* The headers `models/steering_parameters.hpp`, `longitudinal_parameters.hpp`,
  `trailer_parameters.hpp`, `tireParameters.hpp` are not in the sources.
  Their structures are modelled from the spec (§3): each group is a record
  of double fields named exactly as in the loaders of
  `vehicle_parameters.cpp`, every field value-initialised to zero.
-/

set_option maxRecDepth 4000

namespace VeloxModels

/-- A parsed YAML document tree (see the modelling notes above). -/
inductive Yaml where
  | num (v : Rat)
  | str (s : String)
  | map (entries : List (String × Yaml))

/-- yaml-cpp `node[key]`: defined lookup on a mapping (first match),
undefined (`none`) on any other node kind. -/
def Yaml.find : Yaml → String → Option Yaml
  | .map es, k => es.lookup k
  | _, _ => none

/-- yaml-cpp `Node::IsMap`. -/
def Yaml.isMap : Yaml → Bool
  | .map _ => true
  | _ => false

/-- Errors escaping `setup_vehicle_parameters` (see the modelling notes). -/
inductive LoadError where
  | fileNotFound (message : String)
  | parseFailure (detail : String)
  | badConversion (key : String)
deriving DecidableEq

/-- yaml-cpp `node.as<double>()` at the node found under `key`:
succeeds exactly on a numeric scalar. -/
def yaml_as_double (key : String) : Yaml → Except LoadError Rat
  | .num v => .ok v
  | _ => .error (.badConversion key)

/-- C++ `assign_if_present`: if the key exists, convert and assign;
otherwise keep the current target value. -/
def assign_if_present (node : Yaml) (key : String) (target : Rat) :
    Except LoadError Rat :=
  match node.find key with
  | some v => yaml_as_double key v
  | none => .ok target

/-- Modelled from the spec (§3): `utils::SteeringParameters`
(header `models/steering_parameters.hpp` is not in the sources);
fields as assigned by `load_steering`, all defaulting to zero. -/
structure SteeringParameters where
  min : Rat
  max : Rat
  v_min : Rat
  v_max : Rat
  kappa_dot_max : Rat
  kappa_dot_dot_max : Rat
deriving DecidableEq

/-- All-zero (value-initialised) steering group. -/
def SteeringParameters.zero : SteeringParameters := ⟨0, 0, 0, 0, 0, 0⟩

/-- Modelled from the spec (§3): `utils::LongitudinalParameters`
(header not in the sources); fields as assigned by `load_longitudinal`,
all defaulting to zero. -/
structure LongitudinalParameters where
  v_min : Rat
  v_max : Rat
  v_switch : Rat
  a_max : Rat
  j_max : Rat
  j_dot_max : Rat
deriving DecidableEq

/-- All-zero (value-initialised) longitudinal group. -/
def LongitudinalParameters.zero : LongitudinalParameters := ⟨0, 0, 0, 0, 0, 0⟩

/-- Modelled from the spec (§3): `utils::TrailerParameters`
(header not in the sources); fields as assigned by `load_trailer`,
all defaulting to zero. -/
structure TrailerParameters where
  l : Rat
  w : Rat
  l_hitch : Rat
  l_total : Rat
  l_wb : Rat
deriving DecidableEq

/-- All-zero (value-initialised) trailer group. -/
def TrailerParameters.zero : TrailerParameters := ⟨0, 0, 0, 0, 0⟩

/-- Modelled from the spec (§3): `utils::TireParameters`
(header not in the sources); fields as assigned by `load_tire`,
all defaulting to zero. -/
structure TireParameters where
  p_cx1 : Rat
  p_dx1 : Rat
  p_dx3 : Rat
  p_ex1 : Rat
  p_kx1 : Rat
  p_hx1 : Rat
  p_vx1 : Rat
  r_bx1 : Rat
  r_bx2 : Rat
  r_cx1 : Rat
  r_ex1 : Rat
  r_hx1 : Rat
  p_cy1 : Rat
  p_dy1 : Rat
  p_dy3 : Rat
  p_ey1 : Rat
  p_ky1 : Rat
  p_hy1 : Rat
  p_hy3 : Rat
  p_vy1 : Rat
  p_vy3 : Rat
  r_by1 : Rat
  r_by2 : Rat
  r_by3 : Rat
  r_cy1 : Rat
  r_ey1 : Rat
  r_hy1 : Rat
  r_vy1 : Rat
  r_vy3 : Rat
  r_vy4 : Rat
  r_vy5 : Rat
  r_vy6 : Rat
deriving DecidableEq

/-- All-zero (value-initialised) tire group. -/
def TireParameters.zero : TireParameters :=
  ⟨0, 0, 0, 0, 0, 0, 0, 0, 0, 0, 0, 0, 0, 0, 0, 0,
   0, 0, 0, 0, 0, 0, 0, 0, 0, 0, 0, 0, 0, 0, 0, 0⟩

/-- `velox::models::VehicleParameters` (`vehicle_parameters.hpp`, lines 20–91):
field order as declared in the header, every scalar value-initialised
(`double x{}` is zero). -/
structure VehicleParameters where
  l : Rat
  w : Rat
  steering : SteeringParameters
  longitudinal : LongitudinalParameters
  m : Rat
  m_s : Rat
  m_uf : Rat
  m_ur : Rat
  a : Rat
  b : Rat
  I_Phi_s : Rat
  I_y_s : Rat
  I_z : Rat
  I_xz_s : Rat
  K_sf : Rat
  K_sdf : Rat
  K_sr : Rat
  K_sdr : Rat
  T_f : Rat
  T_r : Rat
  K_ras : Rat
  K_tsf : Rat
  K_tsr : Rat
  K_rad : Rat
  K_zt : Rat
  h_cg : Rat
  h_raf : Rat
  h_rar : Rat
  h_s : Rat
  I_uf : Rat
  I_ur : Rat
  I_y_w : Rat
  K_lt : Rat
  R_w : Rat
  T_sb : Rat
  T_se : Rat
  D_f : Rat
  D_r : Rat
  E_f : Rat
  E_r : Rat
  tire : TireParameters
  trailer : TrailerParameters
deriving DecidableEq

/-- The default-constructed `VehicleParameters`: every scalar zero,
every group all-zero. -/
def VehicleParameters.zero : VehicleParameters where
  l := 0
  w := 0
  steering := SteeringParameters.zero
  longitudinal := LongitudinalParameters.zero
  m := 0
  m_s := 0
  m_uf := 0
  m_ur := 0
  a := 0
  b := 0
  I_Phi_s := 0
  I_y_s := 0
  I_z := 0
  I_xz_s := 0
  K_sf := 0
  K_sdf := 0
  K_sr := 0
  K_sdr := 0
  T_f := 0
  T_r := 0
  K_ras := 0
  K_tsf := 0
  K_tsr := 0
  K_rad := 0
  K_zt := 0
  h_cg := 0
  h_raf := 0
  h_rar := 0
  h_s := 0
  I_uf := 0
  I_ur := 0
  I_y_w := 0
  K_lt := 0
  R_w := 0
  T_sb := 0
  T_se := 0
  D_f := 0
  D_r := 0
  E_f := 0
  E_r := 0
  tire := TireParameters.zero
  trailer := TrailerParameters.zero

/-- C++ `load_steering` (`vehicle_parameters.cpp`, lines 25–36). -/
def load_steering (root : Yaml) (s : SteeringParameters) :
    Except LoadError SteeringParameters :=
  match root.find "steering" with
  | none => .ok s
  | some n =>
    if !n.isMap then .ok s
    else do
      let v1 ← assign_if_present n "min" s.min
      let v2 ← assign_if_present n "max" s.max
      let v3 ← assign_if_present n "v_min" s.v_min
      let v4 ← assign_if_present n "v_max" s.v_max
      let v5 ← assign_if_present n "kappa_dot_max" s.kappa_dot_max
      let v6 ← assign_if_present n "kappa_dot_dot_max" s.kappa_dot_dot_max
      .ok ⟨v1, v2, v3, v4, v5, v6⟩

/-- C++ `load_longitudinal` (`vehicle_parameters.cpp`, lines 39–50). -/
def load_longitudinal (root : Yaml) (lp : LongitudinalParameters) :
    Except LoadError LongitudinalParameters :=
  match root.find "longitudinal" with
  | none => .ok lp
  | some n =>
    if !n.isMap then .ok lp
    else do
      let v1 ← assign_if_present n "v_min" lp.v_min
      let v2 ← assign_if_present n "v_max" lp.v_max
      let v3 ← assign_if_present n "v_switch" lp.v_switch
      let v4 ← assign_if_present n "a_max" lp.a_max
      let v5 ← assign_if_present n "j_max" lp.j_max
      let v6 ← assign_if_present n "j_dot_max" lp.j_dot_max
      .ok ⟨v1, v2, v3, v4, v5, v6⟩

/-- C++ `load_trailer` (`vehicle_parameters.cpp`, lines 53–63). -/
def load_trailer (root : Yaml) (tr : TrailerParameters) :
    Except LoadError TrailerParameters :=
  match root.find "trailer" with
  | none => .ok tr
  | some n =>
    if !n.isMap then .ok tr
    else do
      let v1 ← assign_if_present n "l" tr.l
      let v2 ← assign_if_present n "w" tr.w
      let v3 ← assign_if_present n "l_hitch" tr.l_hitch
      let v4 ← assign_if_present n "l_total" tr.l_total
      let v5 ← assign_if_present n "l_wb" tr.l_wb
      .ok ⟨v1, v2, v3, v4, v5⟩

/-- The field-population tail of C++ `load_tire`
(`vehicle_parameters.cpp`, lines 76–109), applied to the selected node. -/
def load_tire_fields (n : Yaml) (tp : TireParameters) :
    Except LoadError TireParameters := do
  let v1 ← assign_if_present n "p_cx1" tp.p_cx1
  let v2 ← assign_if_present n "p_dx1" tp.p_dx1
  let v3 ← assign_if_present n "p_dx3" tp.p_dx3
  let v4 ← assign_if_present n "p_ex1" tp.p_ex1
  let v5 ← assign_if_present n "p_kx1" tp.p_kx1
  let v6 ← assign_if_present n "p_hx1" tp.p_hx1
  let v7 ← assign_if_present n "p_vx1" tp.p_vx1
  let v8 ← assign_if_present n "r_bx1" tp.r_bx1
  let v9 ← assign_if_present n "r_bx2" tp.r_bx2
  let v10 ← assign_if_present n "r_cx1" tp.r_cx1
  let v11 ← assign_if_present n "r_ex1" tp.r_ex1
  let v12 ← assign_if_present n "r_hx1" tp.r_hx1
  let v13 ← assign_if_present n "p_cy1" tp.p_cy1
  let v14 ← assign_if_present n "p_dy1" tp.p_dy1
  let v15 ← assign_if_present n "p_dy3" tp.p_dy3
  let v16 ← assign_if_present n "p_ey1" tp.p_ey1
  let v17 ← assign_if_present n "p_ky1" tp.p_ky1
  let v18 ← assign_if_present n "p_hy1" tp.p_hy1
  let v19 ← assign_if_present n "p_hy3" tp.p_hy3
  let v20 ← assign_if_present n "p_vy1" tp.p_vy1
  let v21 ← assign_if_present n "p_vy3" tp.p_vy3
  let v22 ← assign_if_present n "r_by1" tp.r_by1
  let v23 ← assign_if_present n "r_by2" tp.r_by2
  let v24 ← assign_if_present n "r_by3" tp.r_by3
  let v25 ← assign_if_present n "r_cy1" tp.r_cy1
  let v26 ← assign_if_present n "r_ey1" tp.r_ey1
  let v27 ← assign_if_present n "r_hy1" tp.r_hy1
  let v28 ← assign_if_present n "r_vy1" tp.r_vy1
  let v29 ← assign_if_present n "r_vy3" tp.r_vy3
  let v30 ← assign_if_present n "r_vy4" tp.r_vy4
  let v31 ← assign_if_present n "r_vy5" tp.r_vy5
  let v32 ← assign_if_present n "r_vy6" tp.r_vy6
  .ok ⟨v1, v2, v3, v4, v5, v6, v7, v8, v9, v10, v11, v12, v13, v14, v15, v16,
       v17, v18, v19, v20, v21, v22, v23, v24, v25, v26, v27, v28, v29, v30,
       v31, v32⟩

/-- The node selection of C++ `load_tire` (`vehicle_parameters.cpp`,
lines 69–72): `root["tire"]` if it is a map, else the document root. -/
def tire_source (root : Yaml) : Yaml :=
  match root.find "tire" with
  | some m => if m.isMap then m else root
  | none => root

/-- C++ `load_tire` (`vehicle_parameters.cpp`, lines 67–110): select
`root["tire"]` if it is a map, else fall back to the document root;
populate only if the selected node is a map. -/
def load_tire (root : Yaml) (tp : TireParameters) :
    Except LoadError TireParameters :=
  if !(tire_source root).isMap then .ok tp
  else load_tire_fields (tire_source root) tp

/-- The recognized top-level scalar keys of the vehicle document, in the
order `load_vehicle_scalars` reads them. -/
def vehicle_scalar_keys : List String :=
  ["l", "w", "m", "m_s", "m_uf", "m_ur", "a", "b", "I_Phi_s", "I_y_s",
   "I_z", "I_xz_s", "K_sf", "K_sdf", "K_sr", "K_sdr", "T_f", "T_r",
   "K_ras", "K_tsf", "K_tsr", "K_rad", "K_zt", "h_cg", "h_raf", "h_rar",
   "h_s", "I_uf", "I_ur", "I_y_w", "K_lt", "R_w", "T_sb", "T_se", "D_f",
   "D_r", "E_f", "E_r"]

/-- The recognized keys of the `steering` group. -/
def steering_keys : List String :=
  ["min", "max", "v_min", "v_max", "kappa_dot_max", "kappa_dot_dot_max"]

/-- The recognized keys of the `longitudinal` group. -/
def longitudinal_keys : List String :=
  ["v_min", "v_max", "v_switch", "a_max", "j_max", "j_dot_max"]

/-- The recognized keys of the `trailer` group. -/
def trailer_keys : List String :=
  ["l", "w", "l_hitch", "l_total", "l_wb"]

/-- The recognized tire coefficient keys, in the order `load_tire`
reads them. -/
def tire_keys : List String :=
  ["p_cx1", "p_dx1", "p_dx3", "p_ex1", "p_kx1", "p_hx1", "p_vx1",
   "r_bx1", "r_bx2", "r_cx1", "r_ex1", "r_hx1", "p_cy1", "p_dy1",
   "p_dy3", "p_ey1", "p_ky1", "p_hy1", "p_hy3", "p_vy1", "p_vy3",
   "r_by1", "r_by2", "r_by3", "r_cy1", "r_ey1", "r_hy1", "r_vy1",
   "r_vy3", "r_vy4", "r_vy5", "r_vy6"]

/-- C++ `load_vehicle_scalars` (`vehicle_parameters.cpp`, lines 113–173). -/
def load_vehicle_scalars (n : Yaml) (p : VehicleParameters) :
    Except LoadError VehicleParameters := do
  let s1 ← assign_if_present n "l" p.l
  let s2 ← assign_if_present n "w" p.w
  let s3 ← assign_if_present n "m" p.m
  let s4 ← assign_if_present n "m_s" p.m_s
  let s5 ← assign_if_present n "m_uf" p.m_uf
  let s6 ← assign_if_present n "m_ur" p.m_ur
  let s7 ← assign_if_present n "a" p.a
  let s8 ← assign_if_present n "b" p.b
  let s9 ← assign_if_present n "I_Phi_s" p.I_Phi_s
  let s10 ← assign_if_present n "I_y_s" p.I_y_s
  let s11 ← assign_if_present n "I_z" p.I_z
  let s12 ← assign_if_present n "I_xz_s" p.I_xz_s
  let s13 ← assign_if_present n "K_sf" p.K_sf
  let s14 ← assign_if_present n "K_sdf" p.K_sdf
  let s15 ← assign_if_present n "K_sr" p.K_sr
  let s16 ← assign_if_present n "K_sdr" p.K_sdr
  let s17 ← assign_if_present n "T_f" p.T_f
  let s18 ← assign_if_present n "T_r" p.T_r
  let s19 ← assign_if_present n "K_ras" p.K_ras
  let s20 ← assign_if_present n "K_tsf" p.K_tsf
  let s21 ← assign_if_present n "K_tsr" p.K_tsr
  let s22 ← assign_if_present n "K_rad" p.K_rad
  let s23 ← assign_if_present n "K_zt" p.K_zt
  let s24 ← assign_if_present n "h_cg" p.h_cg
  let s25 ← assign_if_present n "h_raf" p.h_raf
  let s26 ← assign_if_present n "h_rar" p.h_rar
  let s27 ← assign_if_present n "h_s" p.h_s
  let s28 ← assign_if_present n "I_uf" p.I_uf
  let s29 ← assign_if_present n "I_ur" p.I_ur
  let s30 ← assign_if_present n "I_y_w" p.I_y_w
  let s31 ← assign_if_present n "K_lt" p.K_lt
  let s32 ← assign_if_present n "R_w" p.R_w
  let s33 ← assign_if_present n "T_sb" p.T_sb
  let s34 ← assign_if_present n "T_se" p.T_se
  let s35 ← assign_if_present n "D_f" p.D_f
  let s36 ← assign_if_present n "D_r" p.D_r
  let s37 ← assign_if_present n "E_f" p.E_f
  let s38 ← assign_if_present n "E_r" p.E_r
  .ok { p with
    l := s1, w := s2, m := s3, m_s := s4, m_uf := s5, m_ur := s6,
    a := s7, b := s8, I_Phi_s := s9, I_y_s := s10, I_z := s11, I_xz_s := s12,
    K_sf := s13, K_sdf := s14, K_sr := s15, K_sdr := s16,
    T_f := s17, T_r := s18, K_ras := s19, K_tsf := s20, K_tsr := s21,
    K_rad := s22, K_zt := s23, h_cg := s24, h_raf := s25, h_rar := s26,
    h_s := s27, I_uf := s28, I_ur := s29, I_y_w := s30, K_lt := s31,
    R_w := s32, T_sb := s33, T_se := s34, D_f := s35, D_r := s36,
    E_f := s37, E_r := s38 }

/-- POSIX `std::filesystem::path::operator/` on the string representation:
append a separator unless the left side is empty or already ends in one. -/
def pathAppend (a b : String) : String :=
  if a = "" then b
  else if a.data.getLast? = some '/' then a ++ b
  else a ++ "/" ++ b

/-- The parameter root: the compiled-in constant `"parameters"`
(`VELOX_PARAM_ROOT`) when `dir_params` is empty, else `dir_params`
(`vehicle_parameters.cpp`, lines 181–187). -/
def param_root (dir_params : String) : String :=
  if dir_params = "" then "parameters" else dir_params

/-- The resolved vehicle document path
(`vehicle_parameters.cpp`, lines 190–191). -/
def vehicle_yaml_path (dir_params : String) (vehicle_id : Int) : String :=
  pathAppend (pathAppend (param_root dir_params) "vehicle")
    ("parameters_vehicle" ++ toString vehicle_id ++ ".yaml")

/-- The resolved tire document path (`vehicle_parameters.cpp`, line 192). -/
def tire_yaml_path (dir_params : String) : String :=
  pathAppend (pathAppend (param_root dir_params) "tire") "parameters_tire.yaml"

/-- The population phase of `setup_vehicle_parameters`
(`vehicle_parameters.cpp`, lines 206–217): default-construct, then fill
from the vehicle tree and the tire tree in source order. -/
def populate_from_documents (conf_vehicle conf_tire : Yaml) :
    Except LoadError VehicleParameters := do
  let p0 := VehicleParameters.zero
  let p ← load_vehicle_scalars conf_vehicle p0
  let st ← load_steering conf_vehicle p.steering
  let lo ← load_longitudinal conf_vehicle p.longitudinal
  let tr ← load_trailer conf_vehicle p.trailer
  let ti ← load_tire conf_tire p.tire
  .ok { p with steering := st, longitudinal := lo, trailer := tr, tire := ti }

/-- A filesystem, as seen by the engine: `fs::exists` and `YAML::LoadFile`
(the latter returning the parsed tree or a parse failure). -/
structure FileSystem where
  file_exists : String → Bool
  load_file : String → Except LoadError Yaml

/-- C++ `setup_vehicle_parameters` (`vehicle_parameters.cpp`, lines 177–218):
resolve the two paths, check existence fail-fast (vehicle first), parse
both documents, then populate. -/
def setup_vehicle_parameters (fsys : FileSystem) (vehicle_id : Int)
    (dir_params : String) : Except LoadError VehicleParameters :=
  let vehicle_yaml := vehicle_yaml_path dir_params vehicle_id
  let tire_yaml := tire_yaml_path dir_params
  if !fsys.file_exists vehicle_yaml then
    .error (.fileNotFound ("Vehicle parameter file not found: " ++ vehicle_yaml))
  else if !fsys.file_exists tire_yaml then
    .error (.fileNotFound ("Tire parameter file not found: " ++ tire_yaml))
  else do
    let conf_vehicle ← fsys.load_file vehicle_yaml
    let conf_tire ← fsys.load_file tire_yaml
    populate_from_documents conf_vehicle conf_tire

/-- A filesystem holding exactly the two documents of a default-root
resolution for vehicle id 1: used to run the engine end-to-end on given
document trees. -/
def docFS (vdoc tdoc : Yaml) : FileSystem where
  file_exists := fun _ => true
  load_file := fun p =>
    if p = tire_yaml_path "" then .ok tdoc else .ok vdoc

/-- Run a full resolution call on the given vehicle and tire documents. -/
def run_setup (vdoc tdoc : Yaml) : Except LoadError VehicleParameters :=
  setup_vehicle_parameters (docFS vdoc tdoc) 1 ""

theorem except_bind_ok {α β : Type} {x : Except LoadError α}
    {f : α → Except LoadError β} {b : β} (h : x >>= f = .ok b) :
    ∃ a, x = .ok a ∧ f a = .ok b := by
  cases x with
  | error e =>
    simp only [Bind.bind, Except.bind] at h
    exact Except.noConfusion h
  | ok a => exact ⟨a, rfl, h⟩

theorem run_setup_eq (vdoc tdoc : Yaml) :
    run_setup vdoc tdoc = populate_from_documents vdoc tdoc := rfl

theorem populate_ok_destruct (cv ct : Yaml) (r : VehicleParameters)
    (h : populate_from_documents cv ct = .ok r) :
    ∃ p st lo tr ti,
      load_vehicle_scalars cv VehicleParameters.zero = .ok p ∧
      load_steering cv p.steering = .ok st ∧
      load_longitudinal cv p.longitudinal = .ok lo ∧
      load_trailer cv p.trailer = .ok tr ∧
      load_tire ct p.tire = .ok ti ∧
      r = { p with steering := st, longitudinal := lo, trailer := tr, tire := ti } := by
  unfold populate_from_documents at h
  obtain ⟨p, h1, h⟩ := except_bind_ok h
  obtain ⟨st, h2, h⟩ := except_bind_ok h
  obtain ⟨lo, h3, h⟩ := except_bind_ok h
  obtain ⟨tr, h4, h⟩ := except_bind_ok h
  obtain ⟨ti, h5, h⟩ := except_bind_ok h
  injection h with h
  exact ⟨p, st, lo, tr, ti, h1, h2, h3, h4, h5, h.symm⟩

theorem load_vehicle_scalars_groups (n : Yaml) (p q : VehicleParameters)
    (h : load_vehicle_scalars n p = .ok q) :
    q.steering = p.steering ∧ q.longitudinal = p.longitudinal ∧
    q.tire = p.tire ∧ q.trailer = p.trailer := by
  unfold load_vehicle_scalars at h
  iterate 38 obtain ⟨_, -, h⟩ := except_bind_ok h
  injection h with h
  subst h
  exact ⟨rfl, rfl, rfl, rfl⟩

theorem assign_if_present_congr (d1 d2 : Yaml) (k : String)
    (h : d1.find k = d2.find k) :
    ∀ t, assign_if_present d1 k t = assign_if_present d2 k t := by
  intro t
  unfold assign_if_present
  rw [h]

theorem load_vehicle_scalars_congr (d1 d2 : Yaml) (p : VehicleParameters)
    (h : ∀ k ∈ vehicle_scalar_keys, d1.find k = d2.find k) :
    load_vehicle_scalars d1 p = load_vehicle_scalars d2 p := by
  unfold load_vehicle_scalars
  simp only [assign_if_present_congr d1 d2 "l" (h _ (by decide)),
    assign_if_present_congr d1 d2 "w" (h _ (by decide)),
    assign_if_present_congr d1 d2 "m" (h _ (by decide)),
    assign_if_present_congr d1 d2 "m_s" (h _ (by decide)),
    assign_if_present_congr d1 d2 "m_uf" (h _ (by decide)),
    assign_if_present_congr d1 d2 "m_ur" (h _ (by decide)),
    assign_if_present_congr d1 d2 "a" (h _ (by decide)),
    assign_if_present_congr d1 d2 "b" (h _ (by decide)),
    assign_if_present_congr d1 d2 "I_Phi_s" (h _ (by decide)),
    assign_if_present_congr d1 d2 "I_y_s" (h _ (by decide)),
    assign_if_present_congr d1 d2 "I_z" (h _ (by decide)),
    assign_if_present_congr d1 d2 "I_xz_s" (h _ (by decide)),
    assign_if_present_congr d1 d2 "K_sf" (h _ (by decide)),
    assign_if_present_congr d1 d2 "K_sdf" (h _ (by decide)),
    assign_if_present_congr d1 d2 "K_sr" (h _ (by decide)),
    assign_if_present_congr d1 d2 "K_sdr" (h _ (by decide)),
    assign_if_present_congr d1 d2 "T_f" (h _ (by decide)),
    assign_if_present_congr d1 d2 "T_r" (h _ (by decide)),
    assign_if_present_congr d1 d2 "K_ras" (h _ (by decide)),
    assign_if_present_congr d1 d2 "K_tsf" (h _ (by decide)),
    assign_if_present_congr d1 d2 "K_tsr" (h _ (by decide)),
    assign_if_present_congr d1 d2 "K_rad" (h _ (by decide)),
    assign_if_present_congr d1 d2 "K_zt" (h _ (by decide)),
    assign_if_present_congr d1 d2 "h_cg" (h _ (by decide)),
    assign_if_present_congr d1 d2 "h_raf" (h _ (by decide)),
    assign_if_present_congr d1 d2 "h_rar" (h _ (by decide)),
    assign_if_present_congr d1 d2 "h_s" (h _ (by decide)),
    assign_if_present_congr d1 d2 "I_uf" (h _ (by decide)),
    assign_if_present_congr d1 d2 "I_ur" (h _ (by decide)),
    assign_if_present_congr d1 d2 "I_y_w" (h _ (by decide)),
    assign_if_present_congr d1 d2 "K_lt" (h _ (by decide)),
    assign_if_present_congr d1 d2 "R_w" (h _ (by decide)),
    assign_if_present_congr d1 d2 "T_sb" (h _ (by decide)),
    assign_if_present_congr d1 d2 "T_se" (h _ (by decide)),
    assign_if_present_congr d1 d2 "D_f" (h _ (by decide)),
    assign_if_present_congr d1 d2 "D_r" (h _ (by decide)),
    assign_if_present_congr d1 d2 "E_f" (h _ (by decide)),
    assign_if_present_congr d1 d2 "E_r" (h _ (by decide))]

theorem load_steering_congr (d1 d2 : Yaml) (s : SteeringParameters)
    (h : d1.find "steering" = d2.find "steering") :
    load_steering d1 s = load_steering d2 s := by
  unfold load_steering
  rw [h]

theorem load_longitudinal_congr (d1 d2 : Yaml) (lp : LongitudinalParameters)
    (h : d1.find "longitudinal" = d2.find "longitudinal") :
    load_longitudinal d1 lp = load_longitudinal d2 lp := by
  unfold load_longitudinal
  rw [h]

theorem load_trailer_congr (d1 d2 : Yaml) (tr : TrailerParameters)
    (h : d1.find "trailer" = d2.find "trailer") :
    load_trailer d1 tr = load_trailer d2 tr := by
  unfold load_trailer
  rw [h]

theorem yaml_find_none_of_not_map (y : Yaml) (h : y.isMap = false) (k : String) :
    y.find k = none := by
  cases y <;> simp_all [Yaml.isMap, Yaml.find]

theorem assign_ok_numeric {n : Yaml} {k : String} {t v : Rat}
    (h : assign_if_present n k t = .ok v) :
    ∀ nd, n.find k = some nd → ∃ x, nd = Yaml.num x := by
  intro nd hnd
  unfold assign_if_present at h
  rw [hnd] at h
  cases nd with
  | num x => exact ⟨x, rfl⟩
  | str s => simp [yaml_as_double] at h
  | map es => simp [yaml_as_double] at h

theorem load_steering_ok_numeric (root : Yaml) (s q : SteeringParameters)
    (h : load_steering root s = .ok q) :
    ∀ n0, root.find "steering" = some n0 → n0.isMap = true →
      ∀ k ∈ steering_keys, ∀ nd, n0.find k = some nd → ∃ x, nd = Yaml.num x := by
  intro n0 hf hm k hk nd hnd
  unfold load_steering at h
  rw [hf] at h
  simp only [hm, Bool.not_true, Bool.false_eq_true, if_false] at h
  obtain ⟨a1, ha1, h⟩ := except_bind_ok h
  obtain ⟨a2, ha2, h⟩ := except_bind_ok h
  obtain ⟨a3, ha3, h⟩ := except_bind_ok h
  obtain ⟨a4, ha4, h⟩ := except_bind_ok h
  obtain ⟨a5, ha5, h⟩ := except_bind_ok h
  obtain ⟨a6, ha6, h⟩ := except_bind_ok h
  simp [steering_keys] at hk
  rcases hk with rfl | rfl | rfl | rfl | rfl | rfl
  · exact assign_ok_numeric ha1 nd hnd
  · exact assign_ok_numeric ha2 nd hnd
  · exact assign_ok_numeric ha3 nd hnd
  · exact assign_ok_numeric ha4 nd hnd
  · exact assign_ok_numeric ha5 nd hnd
  · exact assign_ok_numeric ha6 nd hnd
theorem load_longitudinal_ok_numeric (root : Yaml) (s q : LongitudinalParameters)
    (h : load_longitudinal root s = .ok q) :
    ∀ n0, root.find "longitudinal" = some n0 → n0.isMap = true →
      ∀ k ∈ longitudinal_keys, ∀ nd, n0.find k = some nd → ∃ x, nd = Yaml.num x := by
  intro n0 hf hm k hk nd hnd
  unfold load_longitudinal at h
  rw [hf] at h
  simp only [hm, Bool.not_true, Bool.false_eq_true, if_false] at h
  obtain ⟨a1, ha1, h⟩ := except_bind_ok h
  obtain ⟨a2, ha2, h⟩ := except_bind_ok h
  obtain ⟨a3, ha3, h⟩ := except_bind_ok h
  obtain ⟨a4, ha4, h⟩ := except_bind_ok h
  obtain ⟨a5, ha5, h⟩ := except_bind_ok h
  obtain ⟨a6, ha6, h⟩ := except_bind_ok h
  simp [longitudinal_keys] at hk
  rcases hk with rfl | rfl | rfl | rfl | rfl | rfl
  · exact assign_ok_numeric ha1 nd hnd
  · exact assign_ok_numeric ha2 nd hnd
  · exact assign_ok_numeric ha3 nd hnd
  · exact assign_ok_numeric ha4 nd hnd
  · exact assign_ok_numeric ha5 nd hnd
  · exact assign_ok_numeric ha6 nd hnd

theorem load_trailer_ok_numeric (root : Yaml) (s q : TrailerParameters)
    (h : load_trailer root s = .ok q) :
    ∀ n0, root.find "trailer" = some n0 → n0.isMap = true →
      ∀ k ∈ trailer_keys, ∀ nd, n0.find k = some nd → ∃ x, nd = Yaml.num x := by
  intro n0 hf hm k hk nd hnd
  unfold load_trailer at h
  rw [hf] at h
  simp only [hm, Bool.not_true, Bool.false_eq_true, if_false] at h
  obtain ⟨a1, ha1, h⟩ := except_bind_ok h
  obtain ⟨a2, ha2, h⟩ := except_bind_ok h
  obtain ⟨a3, ha3, h⟩ := except_bind_ok h
  obtain ⟨a4, ha4, h⟩ := except_bind_ok h
  obtain ⟨a5, ha5, h⟩ := except_bind_ok h
  simp [trailer_keys] at hk
  rcases hk with rfl | rfl | rfl | rfl | rfl
  · exact assign_ok_numeric ha1 nd hnd
  · exact assign_ok_numeric ha2 nd hnd
  · exact assign_ok_numeric ha3 nd hnd
  · exact assign_ok_numeric ha4 nd hnd
  · exact assign_ok_numeric ha5 nd hnd

theorem load_vehicle_scalars_ok_numeric (n : Yaml) (p q : VehicleParameters)
    (h : load_vehicle_scalars n p = .ok q) :
    ∀ k ∈ vehicle_scalar_keys, ∀ nd, n.find k = some nd →
      ∃ x, nd = Yaml.num x := by
  intro k hk nd hnd
  unfold load_vehicle_scalars at h
  obtain ⟨a1, ha1, h⟩ := except_bind_ok h
  obtain ⟨a2, ha2, h⟩ := except_bind_ok h
  obtain ⟨a3, ha3, h⟩ := except_bind_ok h
  obtain ⟨a4, ha4, h⟩ := except_bind_ok h
  obtain ⟨a5, ha5, h⟩ := except_bind_ok h
  obtain ⟨a6, ha6, h⟩ := except_bind_ok h
  obtain ⟨a7, ha7, h⟩ := except_bind_ok h
  obtain ⟨a8, ha8, h⟩ := except_bind_ok h
  obtain ⟨a9, ha9, h⟩ := except_bind_ok h
  obtain ⟨a10, ha10, h⟩ := except_bind_ok h
  obtain ⟨a11, ha11, h⟩ := except_bind_ok h
  obtain ⟨a12, ha12, h⟩ := except_bind_ok h
  obtain ⟨a13, ha13, h⟩ := except_bind_ok h
  obtain ⟨a14, ha14, h⟩ := except_bind_ok h
  obtain ⟨a15, ha15, h⟩ := except_bind_ok h
  obtain ⟨a16, ha16, h⟩ := except_bind_ok h
  obtain ⟨a17, ha17, h⟩ := except_bind_ok h
  obtain ⟨a18, ha18, h⟩ := except_bind_ok h
  obtain ⟨a19, ha19, h⟩ := except_bind_ok h
  obtain ⟨a20, ha20, h⟩ := except_bind_ok h
  obtain ⟨a21, ha21, h⟩ := except_bind_ok h
  obtain ⟨a22, ha22, h⟩ := except_bind_ok h
  obtain ⟨a23, ha23, h⟩ := except_bind_ok h
  obtain ⟨a24, ha24, h⟩ := except_bind_ok h
  obtain ⟨a25, ha25, h⟩ := except_bind_ok h
  obtain ⟨a26, ha26, h⟩ := except_bind_ok h
  obtain ⟨a27, ha27, h⟩ := except_bind_ok h
  obtain ⟨a28, ha28, h⟩ := except_bind_ok h
  obtain ⟨a29, ha29, h⟩ := except_bind_ok h
  obtain ⟨a30, ha30, h⟩ := except_bind_ok h
  obtain ⟨a31, ha31, h⟩ := except_bind_ok h
  obtain ⟨a32, ha32, h⟩ := except_bind_ok h
  obtain ⟨a33, ha33, h⟩ := except_bind_ok h
  obtain ⟨a34, ha34, h⟩ := except_bind_ok h
  obtain ⟨a35, ha35, h⟩ := except_bind_ok h
  obtain ⟨a36, ha36, h⟩ := except_bind_ok h
  obtain ⟨a37, ha37, h⟩ := except_bind_ok h
  obtain ⟨a38, ha38, h⟩ := except_bind_ok h
  simp [vehicle_scalar_keys] at hk
  rcases hk with rfl | rfl | rfl | rfl | rfl | rfl | rfl | rfl | rfl | rfl | rfl | rfl | rfl | rfl | rfl | rfl | rfl | rfl | rfl | rfl | rfl | rfl | rfl | rfl | rfl | rfl | rfl | rfl | rfl | rfl | rfl | rfl | rfl | rfl | rfl | rfl | rfl | rfl
  · exact assign_ok_numeric ha1 nd hnd
  · exact assign_ok_numeric ha2 nd hnd
  · exact assign_ok_numeric ha3 nd hnd
  · exact assign_ok_numeric ha4 nd hnd
  · exact assign_ok_numeric ha5 nd hnd
  · exact assign_ok_numeric ha6 nd hnd
  · exact assign_ok_numeric ha7 nd hnd
  · exact assign_ok_numeric ha8 nd hnd
  · exact assign_ok_numeric ha9 nd hnd
  · exact assign_ok_numeric ha10 nd hnd
  · exact assign_ok_numeric ha11 nd hnd
  · exact assign_ok_numeric ha12 nd hnd
  · exact assign_ok_numeric ha13 nd hnd
  · exact assign_ok_numeric ha14 nd hnd
  · exact assign_ok_numeric ha15 nd hnd
  · exact assign_ok_numeric ha16 nd hnd
  · exact assign_ok_numeric ha17 nd hnd
  · exact assign_ok_numeric ha18 nd hnd
  · exact assign_ok_numeric ha19 nd hnd
  · exact assign_ok_numeric ha20 nd hnd
  · exact assign_ok_numeric ha21 nd hnd
  · exact assign_ok_numeric ha22 nd hnd
  · exact assign_ok_numeric ha23 nd hnd
  · exact assign_ok_numeric ha24 nd hnd
  · exact assign_ok_numeric ha25 nd hnd
  · exact assign_ok_numeric ha26 nd hnd
  · exact assign_ok_numeric ha27 nd hnd
  · exact assign_ok_numeric ha28 nd hnd
  · exact assign_ok_numeric ha29 nd hnd
  · exact assign_ok_numeric ha30 nd hnd
  · exact assign_ok_numeric ha31 nd hnd
  · exact assign_ok_numeric ha32 nd hnd
  · exact assign_ok_numeric ha33 nd hnd
  · exact assign_ok_numeric ha34 nd hnd
  · exact assign_ok_numeric ha35 nd hnd
  · exact assign_ok_numeric ha36 nd hnd
  · exact assign_ok_numeric ha37 nd hnd
  · exact assign_ok_numeric ha38 nd hnd

theorem load_tire_ok_numeric (root : Yaml) (tp q : TireParameters)
    (h : load_tire root tp = .ok q) :
    ∀ k ∈ tire_keys, ∀ nd, (tire_source root).find k = some nd →
      ∃ x, nd = Yaml.num x := by
  intro k hk nd hnd
  unfold load_tire at h
  cases hmap : (tire_source root).isMap with
  | false =>
    rw [yaml_find_none_of_not_map _ hmap] at hnd
    exact Option.noConfusion hnd
  | true =>
    simp only [hmap, Bool.not_true, Bool.false_eq_true, if_false] at h
    unfold load_tire_fields at h
    obtain ⟨a1, ha1, h⟩ := except_bind_ok h
    obtain ⟨a2, ha2, h⟩ := except_bind_ok h
    obtain ⟨a3, ha3, h⟩ := except_bind_ok h
    obtain ⟨a4, ha4, h⟩ := except_bind_ok h
    obtain ⟨a5, ha5, h⟩ := except_bind_ok h
    obtain ⟨a6, ha6, h⟩ := except_bind_ok h
    obtain ⟨a7, ha7, h⟩ := except_bind_ok h
    obtain ⟨a8, ha8, h⟩ := except_bind_ok h
    obtain ⟨a9, ha9, h⟩ := except_bind_ok h
    obtain ⟨a10, ha10, h⟩ := except_bind_ok h
    obtain ⟨a11, ha11, h⟩ := except_bind_ok h
    obtain ⟨a12, ha12, h⟩ := except_bind_ok h
    obtain ⟨a13, ha13, h⟩ := except_bind_ok h
    obtain ⟨a14, ha14, h⟩ := except_bind_ok h
    obtain ⟨a15, ha15, h⟩ := except_bind_ok h
    obtain ⟨a16, ha16, h⟩ := except_bind_ok h
    obtain ⟨a17, ha17, h⟩ := except_bind_ok h
    obtain ⟨a18, ha18, h⟩ := except_bind_ok h
    obtain ⟨a19, ha19, h⟩ := except_bind_ok h
    obtain ⟨a20, ha20, h⟩ := except_bind_ok h
    obtain ⟨a21, ha21, h⟩ := except_bind_ok h
    obtain ⟨a22, ha22, h⟩ := except_bind_ok h
    obtain ⟨a23, ha23, h⟩ := except_bind_ok h
    obtain ⟨a24, ha24, h⟩ := except_bind_ok h
    obtain ⟨a25, ha25, h⟩ := except_bind_ok h
    obtain ⟨a26, ha26, h⟩ := except_bind_ok h
    obtain ⟨a27, ha27, h⟩ := except_bind_ok h
    obtain ⟨a28, ha28, h⟩ := except_bind_ok h
    obtain ⟨a29, ha29, h⟩ := except_bind_ok h
    obtain ⟨a30, ha30, h⟩ := except_bind_ok h
    obtain ⟨a31, ha31, h⟩ := except_bind_ok h
    obtain ⟨a32, ha32, h⟩ := except_bind_ok h
    simp [tire_keys] at hk
    rcases hk with rfl | rfl | rfl | rfl | rfl | rfl | rfl | rfl | rfl | rfl | rfl | rfl | rfl | rfl | rfl | rfl | rfl | rfl | rfl | rfl | rfl | rfl | rfl | rfl | rfl | rfl | rfl | rfl | rfl | rfl | rfl | rfl
    · exact assign_ok_numeric ha1 nd hnd
    · exact assign_ok_numeric ha2 nd hnd
    · exact assign_ok_numeric ha3 nd hnd
    · exact assign_ok_numeric ha4 nd hnd
    · exact assign_ok_numeric ha5 nd hnd
    · exact assign_ok_numeric ha6 nd hnd
    · exact assign_ok_numeric ha7 nd hnd
    · exact assign_ok_numeric ha8 nd hnd
    · exact assign_ok_numeric ha9 nd hnd
    · exact assign_ok_numeric ha10 nd hnd
    · exact assign_ok_numeric ha11 nd hnd
    · exact assign_ok_numeric ha12 nd hnd
    · exact assign_ok_numeric ha13 nd hnd
    · exact assign_ok_numeric ha14 nd hnd
    · exact assign_ok_numeric ha15 nd hnd
    · exact assign_ok_numeric ha16 nd hnd
    · exact assign_ok_numeric ha17 nd hnd
    · exact assign_ok_numeric ha18 nd hnd
    · exact assign_ok_numeric ha19 nd hnd
    · exact assign_ok_numeric ha20 nd hnd
    · exact assign_ok_numeric ha21 nd hnd
    · exact assign_ok_numeric ha22 nd hnd
    · exact assign_ok_numeric ha23 nd hnd
    · exact assign_ok_numeric ha24 nd hnd
    · exact assign_ok_numeric ha25 nd hnd
    · exact assign_ok_numeric ha26 nd hnd
    · exact assign_ok_numeric ha27 nd hnd
    · exact assign_ok_numeric ha28 nd hnd
    · exact assign_ok_numeric ha29 nd hnd
    · exact assign_ok_numeric ha30 nd hnd
    · exact assign_ok_numeric ha31 nd hnd
    · exact assign_ok_numeric ha32 nd hnd

/-- Claim C1 counterexample: a vehicle document carrying a `tire` group with
`p_cx1 = 9` does not override the shared tire document's `p_cx1 = 1`; the
resulting tire group still holds the tire document's value, so the
vehicle-document value is not reflected. -/
theorem claim_C1_counterexample :
    run_setup (.map [("tire", .map [("p_cx1", .num 9)])]) (.map [("p_cx1", .num 1)])
      = .ok { VehicleParameters.zero with tire := { TireParameters.zero with p_cx1 := 1 } }
    ∧ ({ TireParameters.zero with p_cx1 := (1 : Rat) }).p_cx1 ≠ 9 :=
  ⟨rfl, by decide⟩

/-- Claim C1 (amended): the tire group of every successful resolution is
produced solely by `load_tire` on the tire document starting from the
all-zero tire group; the vehicle document never contributes to it, so two
resolutions sharing a tire document share their tire group exactly. -/
theorem claim_C1 :
    (∀ (cv ct : Yaml) (r : VehicleParameters),
       populate_from_documents cv ct = .ok r →
       load_tire ct TireParameters.zero = .ok r.tire)
  ∧ (∀ (vdoc1 vdoc2 tdoc : Yaml) (r1 r2 : VehicleParameters),
       run_setup vdoc1 tdoc = .ok r1 → run_setup vdoc2 tdoc = .ok r2 →
       r1.tire = r2.tire) := by
  have key : ∀ (cv ct : Yaml) (r : VehicleParameters),
      populate_from_documents cv ct = .ok r →
      load_tire ct TireParameters.zero = .ok r.tire := by
    intro cv ct r h
    obtain ⟨p, st, lo, tr, ti, hp, -, -, -, hti, hr⟩ := populate_ok_destruct cv ct r h
    obtain ⟨-, -, htire, -⟩ := load_vehicle_scalars_groups cv VehicleParameters.zero p hp
    rw [htire] at hti
    rw [hr]
    exact hti
  refine ⟨key, ?_⟩
  intro vdoc1 vdoc2 tdoc r1 r2 h1 h2
  rw [run_setup_eq] at h1 h2
  have k1 := key vdoc1 tdoc r1 h1
  have k2 := key vdoc2 tdoc r2 h2
  rw [k1] at k2
  injection k2

/-- Claim C1 witness: the amended theorem applied to two concrete vehicle
documents (one with a `tire` group, one empty) sharing a concrete tire
document. -/
theorem claim_C1_witness :
    ({ VehicleParameters.zero with
        tire := { TireParameters.zero with p_cx1 := 1 } } : VehicleParameters).tire
      = ({ VehicleParameters.zero with
        tire := { TireParameters.zero with p_cx1 := 1 } } : VehicleParameters).tire :=
  claim_C1.2 (.map [("tire", .map [("p_cx1", .num 9)])]) (.map [])
    (.map [("p_cx1", .num 1)]) _ _ rfl rfl

/-- Claim C2: when the vehicle document path does not exist the call fails
with the message naming that path — for every `load_file`, so no document
is read or parsed; when the vehicle path exists but the tire path does not,
the call fails with the message naming the tire path, again for every
`load_file`. -/
theorem claim_C2 :
    ∀ (fsys : FileSystem) (vehicle_id : Int) (dir_params : String),
    (fsys.file_exists (vehicle_yaml_path dir_params vehicle_id) = false →
      setup_vehicle_parameters fsys vehicle_id dir_params
        = .error (.fileNotFound ("Vehicle parameter file not found: "
            ++ vehicle_yaml_path dir_params vehicle_id)))
  ∧ (fsys.file_exists (vehicle_yaml_path dir_params vehicle_id) = true →
     fsys.file_exists (tire_yaml_path dir_params) = false →
      setup_vehicle_parameters fsys vehicle_id dir_params
        = .error (.fileNotFound ("Tire parameter file not found: "
            ++ tire_yaml_path dir_params))) := by
  intro fsys vehicle_id dir_params
  constructor
  · intro h
    simp [setup_vehicle_parameters, h]
  · intro h1 h2
    simp [setup_vehicle_parameters, h1, h2]

/-- Claim C2 witness: a filesystem with no files at all yields the
vehicle-path error, and one holding only the vehicle document yields the
tire-path error, with `load_file` always failing to show no parse is
attempted. -/
theorem claim_C2_witness :
    (setup_vehicle_parameters
        ⟨fun _ => false, fun _ => .error (.parseFailure "never")⟩ 1 ""
      = .error (.fileNotFound
          "Vehicle parameter file not found: parameters/vehicle/parameters_vehicle1.yaml"))
  ∧ (setup_vehicle_parameters
        ⟨fun p => p == "parameters/vehicle/parameters_vehicle1.yaml",
         fun _ => .error (.parseFailure "never")⟩ 1 ""
      = .error (.fileNotFound
          "Tire parameter file not found: parameters/tire/parameters_tire.yaml")) :=
  ⟨(claim_C2 ⟨fun _ => false, fun _ => .error (.parseFailure "never")⟩ 1 "").1 rfl,
   (claim_C2 ⟨fun p => p == "parameters/vehicle/parameters_vehicle1.yaml",
     fun _ => .error (.parseFailure "never")⟩ 1 "").2 rfl rfl⟩

/-- Claim C3: a tire document `{tire: {fields}}` and the flat document
`{fields}` (no `tire` key) load identically, for any field entries; and
whenever `tire` is present and is a map, the tire fields are populated
from that nested map (it takes priority over the flat reading). -/
theorem claim_C3 :
    (∀ (entries : List (String × Yaml)) (tp : TireParameters),
       entries.lookup "tire" = none →
       load_tire (.map [("tire", .map entries)]) tp = load_tire (.map entries) tp)
  ∧ (∀ (root n : Yaml) (tp : TireParameters),
       root.find "tire" = some n → n.isMap = true →
       load_tire root tp = load_tire_fields n tp) := by
  constructor
  · intro entries tp h
    unfold load_tire tire_source
    simp [Yaml.find, Yaml.isMap, h]
  · intro root n tp h1 h2
    unfold load_tire tire_source
    rw [h1]
    simp [h2]

/-- Claim C3 witness: the dual-schema equivalence and nested priority at
the concrete entries `p_cx1 = 3/2`. -/
theorem claim_C3_witness :
    (load_tire (.map [("tire", .map [("p_cx1", .num (3/2))])]) TireParameters.zero
      = load_tire (.map [("p_cx1", .num (3/2))]) TireParameters.zero)
  ∧ (load_tire (.map [("tire", .map [("p_cx1", .num (3/2))])]) TireParameters.zero
      = load_tire_fields (.map [("p_cx1", .num (3/2))]) TireParameters.zero) :=
  ⟨claim_C3.1 [("p_cx1", .num (3/2))] TireParameters.zero rfl,
   claim_C3.2 (.map [("tire", .map [("p_cx1", .num (3/2))])])
     (.map [("p_cx1", .num (3/2))]) TireParameters.zero rfl rfl⟩

/-- Claim C4: resolving empty vehicle and tire documents (each an empty
mapping) yields the all-zero structure, whatever the vehicle id and root;
every scalar of `VehicleParameters.zero`, including all group fields, is
zero by definition. -/
theorem claim_C4 :
    (∀ (vehicle_id : Int) (dir_params : String),
      setup_vehicle_parameters ⟨fun _ => true, fun _ => .ok (.map [])⟩
        vehicle_id dir_params = .ok VehicleParameters.zero)
  ∧ run_setup (.map []) (.map []) = .ok VehicleParameters.zero :=
  ⟨fun _ _ => rfl, rfl⟩

/-- Claim C10: a non-map `tire` key in the tire document is silently
ignored and the document's top level is used instead, so sibling tire
coefficients are still populated; the result does not depend on the
non-map value. -/
theorem claim_C10 :
    ∀ (v w : Rat),
    run_setup (.map []) (.map [("tire", .num v), ("p_cx1", .num w)])
      = .ok { VehicleParameters.zero with
          tire := { TireParameters.zero with p_cx1 := w } } :=
  fun _ _ => rfl

/-- Claim C5: for every recognized field name — top-level scalar, or a
field of the steering, longitudinal, trailer or tire group — and every
value `v`, a document setting only that field yields exactly the
all-defaults structure with that one field set to `v`. -/
theorem claim_C5 : ∀ v : Rat,
  (run_setup (.map [("l", .num v)]) (.map []) = .ok { VehicleParameters.zero with l := v })
  ∧
  (run_setup (.map [("w", .num v)]) (.map []) = .ok { VehicleParameters.zero with w := v })
  ∧
  (run_setup (.map [("m", .num v)]) (.map []) = .ok { VehicleParameters.zero with m := v })
  ∧
  (run_setup (.map [("m_s", .num v)]) (.map []) = .ok { VehicleParameters.zero with m_s := v })
  ∧
  (run_setup (.map [("m_uf", .num v)]) (.map []) = .ok { VehicleParameters.zero with m_uf := v })
  ∧
  (run_setup (.map [("m_ur", .num v)]) (.map []) = .ok { VehicleParameters.zero with m_ur := v })
  ∧
  (run_setup (.map [("a", .num v)]) (.map []) = .ok { VehicleParameters.zero with a := v })
  ∧
  (run_setup (.map [("b", .num v)]) (.map []) = .ok { VehicleParameters.zero with b := v })
  ∧
  (run_setup (.map [("I_Phi_s", .num v)]) (.map []) = .ok { VehicleParameters.zero with I_Phi_s := v })
  ∧
  (run_setup (.map [("I_y_s", .num v)]) (.map []) = .ok { VehicleParameters.zero with I_y_s := v })
  ∧
  (run_setup (.map [("I_z", .num v)]) (.map []) = .ok { VehicleParameters.zero with I_z := v })
  ∧
  (run_setup (.map [("I_xz_s", .num v)]) (.map []) = .ok { VehicleParameters.zero with I_xz_s := v })
  ∧
  (run_setup (.map [("K_sf", .num v)]) (.map []) = .ok { VehicleParameters.zero with K_sf := v })
  ∧
  (run_setup (.map [("K_sdf", .num v)]) (.map []) = .ok { VehicleParameters.zero with K_sdf := v })
  ∧
  (run_setup (.map [("K_sr", .num v)]) (.map []) = .ok { VehicleParameters.zero with K_sr := v })
  ∧
  (run_setup (.map [("K_sdr", .num v)]) (.map []) = .ok { VehicleParameters.zero with K_sdr := v })
  ∧
  (run_setup (.map [("T_f", .num v)]) (.map []) = .ok { VehicleParameters.zero with T_f := v })
  ∧
  (run_setup (.map [("T_r", .num v)]) (.map []) = .ok { VehicleParameters.zero with T_r := v })
  ∧
  (run_setup (.map [("K_ras", .num v)]) (.map []) = .ok { VehicleParameters.zero with K_ras := v })
  ∧
  (run_setup (.map [("K_tsf", .num v)]) (.map []) = .ok { VehicleParameters.zero with K_tsf := v })
  ∧
  (run_setup (.map [("K_tsr", .num v)]) (.map []) = .ok { VehicleParameters.zero with K_tsr := v })
  ∧
  (run_setup (.map [("K_rad", .num v)]) (.map []) = .ok { VehicleParameters.zero with K_rad := v })
  ∧
  (run_setup (.map [("K_zt", .num v)]) (.map []) = .ok { VehicleParameters.zero with K_zt := v })
  ∧
  (run_setup (.map [("h_cg", .num v)]) (.map []) = .ok { VehicleParameters.zero with h_cg := v })
  ∧
  (run_setup (.map [("h_raf", .num v)]) (.map []) = .ok { VehicleParameters.zero with h_raf := v })
  ∧
  (run_setup (.map [("h_rar", .num v)]) (.map []) = .ok { VehicleParameters.zero with h_rar := v })
  ∧
  (run_setup (.map [("h_s", .num v)]) (.map []) = .ok { VehicleParameters.zero with h_s := v })
  ∧
  (run_setup (.map [("I_uf", .num v)]) (.map []) = .ok { VehicleParameters.zero with I_uf := v })
  ∧
  (run_setup (.map [("I_ur", .num v)]) (.map []) = .ok { VehicleParameters.zero with I_ur := v })
  ∧
  (run_setup (.map [("I_y_w", .num v)]) (.map []) = .ok { VehicleParameters.zero with I_y_w := v })
  ∧
  (run_setup (.map [("K_lt", .num v)]) (.map []) = .ok { VehicleParameters.zero with K_lt := v })
  ∧
  (run_setup (.map [("R_w", .num v)]) (.map []) = .ok { VehicleParameters.zero with R_w := v })
  ∧
  (run_setup (.map [("T_sb", .num v)]) (.map []) = .ok { VehicleParameters.zero with T_sb := v })
  ∧
  (run_setup (.map [("T_se", .num v)]) (.map []) = .ok { VehicleParameters.zero with T_se := v })
  ∧
  (run_setup (.map [("D_f", .num v)]) (.map []) = .ok { VehicleParameters.zero with D_f := v })
  ∧
  (run_setup (.map [("D_r", .num v)]) (.map []) = .ok { VehicleParameters.zero with D_r := v })
  ∧
  (run_setup (.map [("E_f", .num v)]) (.map []) = .ok { VehicleParameters.zero with E_f := v })
  ∧
  (run_setup (.map [("E_r", .num v)]) (.map []) = .ok { VehicleParameters.zero with E_r := v })
  ∧
  (run_setup (.map [("steering", .map [("min", .num v)])]) (.map []) = .ok { VehicleParameters.zero with steering := { SteeringParameters.zero with min := v } })
  ∧
  (run_setup (.map [("steering", .map [("max", .num v)])]) (.map []) = .ok { VehicleParameters.zero with steering := { SteeringParameters.zero with max := v } })
  ∧
  (run_setup (.map [("steering", .map [("v_min", .num v)])]) (.map []) = .ok { VehicleParameters.zero with steering := { SteeringParameters.zero with v_min := v } })
  ∧
  (run_setup (.map [("steering", .map [("v_max", .num v)])]) (.map []) = .ok { VehicleParameters.zero with steering := { SteeringParameters.zero with v_max := v } })
  ∧
  (run_setup (.map [("steering", .map [("kappa_dot_max", .num v)])]) (.map []) = .ok { VehicleParameters.zero with steering := { SteeringParameters.zero with kappa_dot_max := v } })
  ∧
  (run_setup (.map [("steering", .map [("kappa_dot_dot_max", .num v)])]) (.map []) = .ok { VehicleParameters.zero with steering := { SteeringParameters.zero with kappa_dot_dot_max := v } })
  ∧
  (run_setup (.map [("longitudinal", .map [("v_min", .num v)])]) (.map []) = .ok { VehicleParameters.zero with longitudinal := { LongitudinalParameters.zero with v_min := v } })
  ∧
  (run_setup (.map [("longitudinal", .map [("v_max", .num v)])]) (.map []) = .ok { VehicleParameters.zero with longitudinal := { LongitudinalParameters.zero with v_max := v } })
  ∧
  (run_setup (.map [("longitudinal", .map [("v_switch", .num v)])]) (.map []) = .ok { VehicleParameters.zero with longitudinal := { LongitudinalParameters.zero with v_switch := v } })
  ∧
  (run_setup (.map [("longitudinal", .map [("a_max", .num v)])]) (.map []) = .ok { VehicleParameters.zero with longitudinal := { LongitudinalParameters.zero with a_max := v } })
  ∧
  (run_setup (.map [("longitudinal", .map [("j_max", .num v)])]) (.map []) = .ok { VehicleParameters.zero with longitudinal := { LongitudinalParameters.zero with j_max := v } })
  ∧
  (run_setup (.map [("longitudinal", .map [("j_dot_max", .num v)])]) (.map []) = .ok { VehicleParameters.zero with longitudinal := { LongitudinalParameters.zero with j_dot_max := v } })
  ∧
  (run_setup (.map [("trailer", .map [("l", .num v)])]) (.map []) = .ok { VehicleParameters.zero with trailer := { TrailerParameters.zero with l := v } })
  ∧
  (run_setup (.map [("trailer", .map [("w", .num v)])]) (.map []) = .ok { VehicleParameters.zero with trailer := { TrailerParameters.zero with w := v } })
  ∧
  (run_setup (.map [("trailer", .map [("l_hitch", .num v)])]) (.map []) = .ok { VehicleParameters.zero with trailer := { TrailerParameters.zero with l_hitch := v } })
  ∧
  (run_setup (.map [("trailer", .map [("l_total", .num v)])]) (.map []) = .ok { VehicleParameters.zero with trailer := { TrailerParameters.zero with l_total := v } })
  ∧
  (run_setup (.map [("trailer", .map [("l_wb", .num v)])]) (.map []) = .ok { VehicleParameters.zero with trailer := { TrailerParameters.zero with l_wb := v } })
  ∧
  (run_setup (.map []) (.map [("p_cx1", .num v)]) = .ok { VehicleParameters.zero with tire := { TireParameters.zero with p_cx1 := v } })
  ∧
  (run_setup (.map []) (.map [("p_dx1", .num v)]) = .ok { VehicleParameters.zero with tire := { TireParameters.zero with p_dx1 := v } })
  ∧
  (run_setup (.map []) (.map [("p_dx3", .num v)]) = .ok { VehicleParameters.zero with tire := { TireParameters.zero with p_dx3 := v } })
  ∧
  (run_setup (.map []) (.map [("p_ex1", .num v)]) = .ok { VehicleParameters.zero with tire := { TireParameters.zero with p_ex1 := v } })
  ∧
  (run_setup (.map []) (.map [("p_kx1", .num v)]) = .ok { VehicleParameters.zero with tire := { TireParameters.zero with p_kx1 := v } })
  ∧
  (run_setup (.map []) (.map [("p_hx1", .num v)]) = .ok { VehicleParameters.zero with tire := { TireParameters.zero with p_hx1 := v } })
  ∧
  (run_setup (.map []) (.map [("p_vx1", .num v)]) = .ok { VehicleParameters.zero with tire := { TireParameters.zero with p_vx1 := v } })
  ∧
  (run_setup (.map []) (.map [("r_bx1", .num v)]) = .ok { VehicleParameters.zero with tire := { TireParameters.zero with r_bx1 := v } })
  ∧
  (run_setup (.map []) (.map [("r_bx2", .num v)]) = .ok { VehicleParameters.zero with tire := { TireParameters.zero with r_bx2 := v } })
  ∧
  (run_setup (.map []) (.map [("r_cx1", .num v)]) = .ok { VehicleParameters.zero with tire := { TireParameters.zero with r_cx1 := v } })
  ∧
  (run_setup (.map []) (.map [("r_ex1", .num v)]) = .ok { VehicleParameters.zero with tire := { TireParameters.zero with r_ex1 := v } })
  ∧
  (run_setup (.map []) (.map [("r_hx1", .num v)]) = .ok { VehicleParameters.zero with tire := { TireParameters.zero with r_hx1 := v } })
  ∧
  (run_setup (.map []) (.map [("p_cy1", .num v)]) = .ok { VehicleParameters.zero with tire := { TireParameters.zero with p_cy1 := v } })
  ∧
  (run_setup (.map []) (.map [("p_dy1", .num v)]) = .ok { VehicleParameters.zero with tire := { TireParameters.zero with p_dy1 := v } })
  ∧
  (run_setup (.map []) (.map [("p_dy3", .num v)]) = .ok { VehicleParameters.zero with tire := { TireParameters.zero with p_dy3 := v } })
  ∧
  (run_setup (.map []) (.map [("p_ey1", .num v)]) = .ok { VehicleParameters.zero with tire := { TireParameters.zero with p_ey1 := v } })
  ∧
  (run_setup (.map []) (.map [("p_ky1", .num v)]) = .ok { VehicleParameters.zero with tire := { TireParameters.zero with p_ky1 := v } })
  ∧
  (run_setup (.map []) (.map [("p_hy1", .num v)]) = .ok { VehicleParameters.zero with tire := { TireParameters.zero with p_hy1 := v } })
  ∧
  (run_setup (.map []) (.map [("p_hy3", .num v)]) = .ok { VehicleParameters.zero with tire := { TireParameters.zero with p_hy3 := v } })
  ∧
  (run_setup (.map []) (.map [("p_vy1", .num v)]) = .ok { VehicleParameters.zero with tire := { TireParameters.zero with p_vy1 := v } })
  ∧
  (run_setup (.map []) (.map [("p_vy3", .num v)]) = .ok { VehicleParameters.zero with tire := { TireParameters.zero with p_vy3 := v } })
  ∧
  (run_setup (.map []) (.map [("r_by1", .num v)]) = .ok { VehicleParameters.zero with tire := { TireParameters.zero with r_by1 := v } })
  ∧
  (run_setup (.map []) (.map [("r_by2", .num v)]) = .ok { VehicleParameters.zero with tire := { TireParameters.zero with r_by2 := v } })
  ∧
  (run_setup (.map []) (.map [("r_by3", .num v)]) = .ok { VehicleParameters.zero with tire := { TireParameters.zero with r_by3 := v } })
  ∧
  (run_setup (.map []) (.map [("r_cy1", .num v)]) = .ok { VehicleParameters.zero with tire := { TireParameters.zero with r_cy1 := v } })
  ∧
  (run_setup (.map []) (.map [("r_ey1", .num v)]) = .ok { VehicleParameters.zero with tire := { TireParameters.zero with r_ey1 := v } })
  ∧
  (run_setup (.map []) (.map [("r_hy1", .num v)]) = .ok { VehicleParameters.zero with tire := { TireParameters.zero with r_hy1 := v } })
  ∧
  (run_setup (.map []) (.map [("r_vy1", .num v)]) = .ok { VehicleParameters.zero with tire := { TireParameters.zero with r_vy1 := v } })
  ∧
  (run_setup (.map []) (.map [("r_vy3", .num v)]) = .ok { VehicleParameters.zero with tire := { TireParameters.zero with r_vy3 := v } })
  ∧
  (run_setup (.map []) (.map [("r_vy4", .num v)]) = .ok { VehicleParameters.zero with tire := { TireParameters.zero with r_vy4 := v } })
  ∧
  (run_setup (.map []) (.map [("r_vy5", .num v)]) = .ok { VehicleParameters.zero with tire := { TireParameters.zero with r_vy5 := v } })
  ∧
  (run_setup (.map []) (.map [("r_vy6", .num v)]) = .ok { VehicleParameters.zero with tire := { TireParameters.zero with r_vy6 := v } })
  :=
  fun v => ⟨rfl, rfl, rfl, rfl, rfl, rfl, rfl, rfl, rfl, rfl, rfl, rfl, rfl, rfl, rfl, rfl, rfl, rfl, rfl, rfl, rfl, rfl, rfl, rfl, rfl, rfl, rfl, rfl, rfl, rfl, rfl, rfl, rfl, rfl, rfl, rfl, rfl, rfl, rfl, rfl, rfl, rfl, rfl, rfl, rfl, rfl, rfl, rfl, rfl, rfl, rfl, rfl, rfl, rfl, rfl, rfl, rfl, rfl, rfl, rfl, rfl, rfl, rfl, rfl, rfl, rfl, rfl, rfl, rfl, rfl, rfl, rfl, rfl, rfl, rfl, rfl, rfl, rfl, rfl, rfl, rfl, rfl, rfl, rfl, rfl, rfl, rfl⟩

/-- Claim C7: for every recognized field, a present value that does not
convert to double makes the whole resolution call fail with an error
carrying that field's key and no structure is returned (first block,
one conjunct per recognized field, plus a success conjunct showing
absent recognized fields never raise this error even when unrecognized
keys hold unconvertible values); and in general, any successful
resolution call implies every present recognized field — top-level
scalar, group field under a map-valued group key, or tire field of the
selected tire node — held a numeric scalar, so a present unconvertible
recognized field makes every resolution call fail (second block). -/
theorem claim_C7 :
    (
    (run_setup (.map [("l", .str "oops")]) (.map []) = .error (.badConversion "l"))
    ∧
    (run_setup (.map [("w", .str "oops")]) (.map []) = .error (.badConversion "w"))
    ∧
    (run_setup (.map [("m", .str "oops")]) (.map []) = .error (.badConversion "m"))
    ∧
    (run_setup (.map [("m_s", .str "oops")]) (.map []) = .error (.badConversion "m_s"))
    ∧
    (run_setup (.map [("m_uf", .str "oops")]) (.map []) = .error (.badConversion "m_uf"))
    ∧
    (run_setup (.map [("m_ur", .str "oops")]) (.map []) = .error (.badConversion "m_ur"))
    ∧
    (run_setup (.map [("a", .str "oops")]) (.map []) = .error (.badConversion "a"))
    ∧
    (run_setup (.map [("b", .str "oops")]) (.map []) = .error (.badConversion "b"))
    ∧
    (run_setup (.map [("I_Phi_s", .str "oops")]) (.map []) = .error (.badConversion "I_Phi_s"))
    ∧
    (run_setup (.map [("I_y_s", .str "oops")]) (.map []) = .error (.badConversion "I_y_s"))
    ∧
    (run_setup (.map [("I_z", .str "oops")]) (.map []) = .error (.badConversion "I_z"))
    ∧
    (run_setup (.map [("I_xz_s", .str "oops")]) (.map []) = .error (.badConversion "I_xz_s"))
    ∧
    (run_setup (.map [("K_sf", .str "oops")]) (.map []) = .error (.badConversion "K_sf"))
    ∧
    (run_setup (.map [("K_sdf", .str "oops")]) (.map []) = .error (.badConversion "K_sdf"))
    ∧
    (run_setup (.map [("K_sr", .str "oops")]) (.map []) = .error (.badConversion "K_sr"))
    ∧
    (run_setup (.map [("K_sdr", .str "oops")]) (.map []) = .error (.badConversion "K_sdr"))
    ∧
    (run_setup (.map [("T_f", .str "oops")]) (.map []) = .error (.badConversion "T_f"))
    ∧
    (run_setup (.map [("T_r", .str "oops")]) (.map []) = .error (.badConversion "T_r"))
    ∧
    (run_setup (.map [("K_ras", .str "oops")]) (.map []) = .error (.badConversion "K_ras"))
    ∧
    (run_setup (.map [("K_tsf", .str "oops")]) (.map []) = .error (.badConversion "K_tsf"))
    ∧
    (run_setup (.map [("K_tsr", .str "oops")]) (.map []) = .error (.badConversion "K_tsr"))
    ∧
    (run_setup (.map [("K_rad", .str "oops")]) (.map []) = .error (.badConversion "K_rad"))
    ∧
    (run_setup (.map [("K_zt", .str "oops")]) (.map []) = .error (.badConversion "K_zt"))
    ∧
    (run_setup (.map [("h_cg", .str "oops")]) (.map []) = .error (.badConversion "h_cg"))
    ∧
    (run_setup (.map [("h_raf", .str "oops")]) (.map []) = .error (.badConversion "h_raf"))
    ∧
    (run_setup (.map [("h_rar", .str "oops")]) (.map []) = .error (.badConversion "h_rar"))
    ∧
    (run_setup (.map [("h_s", .str "oops")]) (.map []) = .error (.badConversion "h_s"))
    ∧
    (run_setup (.map [("I_uf", .str "oops")]) (.map []) = .error (.badConversion "I_uf"))
    ∧
    (run_setup (.map [("I_ur", .str "oops")]) (.map []) = .error (.badConversion "I_ur"))
    ∧
    (run_setup (.map [("I_y_w", .str "oops")]) (.map []) = .error (.badConversion "I_y_w"))
    ∧
    (run_setup (.map [("K_lt", .str "oops")]) (.map []) = .error (.badConversion "K_lt"))
    ∧
    (run_setup (.map [("R_w", .str "oops")]) (.map []) = .error (.badConversion "R_w"))
    ∧
    (run_setup (.map [("T_sb", .str "oops")]) (.map []) = .error (.badConversion "T_sb"))
    ∧
    (run_setup (.map [("T_se", .str "oops")]) (.map []) = .error (.badConversion "T_se"))
    ∧
    (run_setup (.map [("D_f", .str "oops")]) (.map []) = .error (.badConversion "D_f"))
    ∧
    (run_setup (.map [("D_r", .str "oops")]) (.map []) = .error (.badConversion "D_r"))
    ∧
    (run_setup (.map [("E_f", .str "oops")]) (.map []) = .error (.badConversion "E_f"))
    ∧
    (run_setup (.map [("E_r", .str "oops")]) (.map []) = .error (.badConversion "E_r"))
    ∧
    (run_setup (.map [("steering", .map [("min", .str "oops")])]) (.map []) = .error (.badConversion "min"))
    ∧
    (run_setup (.map [("steering", .map [("max", .str "oops")])]) (.map []) = .error (.badConversion "max"))
    ∧
    (run_setup (.map [("steering", .map [("v_min", .str "oops")])]) (.map []) = .error (.badConversion "v_min"))
    ∧
    (run_setup (.map [("steering", .map [("v_max", .str "oops")])]) (.map []) = .error (.badConversion "v_max"))
    ∧
    (run_setup (.map [("steering", .map [("kappa_dot_max", .str "oops")])]) (.map []) = .error (.badConversion "kappa_dot_max"))
    ∧
    (run_setup (.map [("steering", .map [("kappa_dot_dot_max", .str "oops")])]) (.map []) = .error (.badConversion "kappa_dot_dot_max"))
    ∧
    (run_setup (.map [("longitudinal", .map [("v_min", .str "oops")])]) (.map []) = .error (.badConversion "v_min"))
    ∧
    (run_setup (.map [("longitudinal", .map [("v_max", .str "oops")])]) (.map []) = .error (.badConversion "v_max"))
    ∧
    (run_setup (.map [("longitudinal", .map [("v_switch", .str "oops")])]) (.map []) = .error (.badConversion "v_switch"))
    ∧
    (run_setup (.map [("longitudinal", .map [("a_max", .str "oops")])]) (.map []) = .error (.badConversion "a_max"))
    ∧
    (run_setup (.map [("longitudinal", .map [("j_max", .str "oops")])]) (.map []) = .error (.badConversion "j_max"))
    ∧
    (run_setup (.map [("longitudinal", .map [("j_dot_max", .str "oops")])]) (.map []) = .error (.badConversion "j_dot_max"))
    ∧
    (run_setup (.map [("trailer", .map [("l", .str "oops")])]) (.map []) = .error (.badConversion "l"))
    ∧
    (run_setup (.map [("trailer", .map [("w", .str "oops")])]) (.map []) = .error (.badConversion "w"))
    ∧
    (run_setup (.map [("trailer", .map [("l_hitch", .str "oops")])]) (.map []) = .error (.badConversion "l_hitch"))
    ∧
    (run_setup (.map [("trailer", .map [("l_total", .str "oops")])]) (.map []) = .error (.badConversion "l_total"))
    ∧
    (run_setup (.map [("trailer", .map [("l_wb", .str "oops")])]) (.map []) = .error (.badConversion "l_wb"))
    ∧
    (run_setup (.map []) (.map [("p_cx1", .str "oops")]) = .error (.badConversion "p_cx1"))
    ∧
    (run_setup (.map []) (.map [("p_dx1", .str "oops")]) = .error (.badConversion "p_dx1"))
    ∧
    (run_setup (.map []) (.map [("p_dx3", .str "oops")]) = .error (.badConversion "p_dx3"))
    ∧
    (run_setup (.map []) (.map [("p_ex1", .str "oops")]) = .error (.badConversion "p_ex1"))
    ∧
    (run_setup (.map []) (.map [("p_kx1", .str "oops")]) = .error (.badConversion "p_kx1"))
    ∧
    (run_setup (.map []) (.map [("p_hx1", .str "oops")]) = .error (.badConversion "p_hx1"))
    ∧
    (run_setup (.map []) (.map [("p_vx1", .str "oops")]) = .error (.badConversion "p_vx1"))
    ∧
    (run_setup (.map []) (.map [("r_bx1", .str "oops")]) = .error (.badConversion "r_bx1"))
    ∧
    (run_setup (.map []) (.map [("r_bx2", .str "oops")]) = .error (.badConversion "r_bx2"))
    ∧
    (run_setup (.map []) (.map [("r_cx1", .str "oops")]) = .error (.badConversion "r_cx1"))
    ∧
    (run_setup (.map []) (.map [("r_ex1", .str "oops")]) = .error (.badConversion "r_ex1"))
    ∧
    (run_setup (.map []) (.map [("r_hx1", .str "oops")]) = .error (.badConversion "r_hx1"))
    ∧
    (run_setup (.map []) (.map [("p_cy1", .str "oops")]) = .error (.badConversion "p_cy1"))
    ∧
    (run_setup (.map []) (.map [("p_dy1", .str "oops")]) = .error (.badConversion "p_dy1"))
    ∧
    (run_setup (.map []) (.map [("p_dy3", .str "oops")]) = .error (.badConversion "p_dy3"))
    ∧
    (run_setup (.map []) (.map [("p_ey1", .str "oops")]) = .error (.badConversion "p_ey1"))
    ∧
    (run_setup (.map []) (.map [("p_ky1", .str "oops")]) = .error (.badConversion "p_ky1"))
    ∧
    (run_setup (.map []) (.map [("p_hy1", .str "oops")]) = .error (.badConversion "p_hy1"))
    ∧
    (run_setup (.map []) (.map [("p_hy3", .str "oops")]) = .error (.badConversion "p_hy3"))
    ∧
    (run_setup (.map []) (.map [("p_vy1", .str "oops")]) = .error (.badConversion "p_vy1"))
    ∧
    (run_setup (.map []) (.map [("p_vy3", .str "oops")]) = .error (.badConversion "p_vy3"))
    ∧
    (run_setup (.map []) (.map [("r_by1", .str "oops")]) = .error (.badConversion "r_by1"))
    ∧
    (run_setup (.map []) (.map [("r_by2", .str "oops")]) = .error (.badConversion "r_by2"))
    ∧
    (run_setup (.map []) (.map [("r_by3", .str "oops")]) = .error (.badConversion "r_by3"))
    ∧
    (run_setup (.map []) (.map [("r_cy1", .str "oops")]) = .error (.badConversion "r_cy1"))
    ∧
    (run_setup (.map []) (.map [("r_ey1", .str "oops")]) = .error (.badConversion "r_ey1"))
    ∧
    (run_setup (.map []) (.map [("r_hy1", .str "oops")]) = .error (.badConversion "r_hy1"))
    ∧
    (run_setup (.map []) (.map [("r_vy1", .str "oops")]) = .error (.badConversion "r_vy1"))
    ∧
    (run_setup (.map []) (.map [("r_vy3", .str "oops")]) = .error (.badConversion "r_vy3"))
    ∧
    (run_setup (.map []) (.map [("r_vy4", .str "oops")]) = .error (.badConversion "r_vy4"))
    ∧
    (run_setup (.map []) (.map [("r_vy5", .str "oops")]) = .error (.badConversion "r_vy5"))
    ∧
    (run_setup (.map []) (.map [("r_vy6", .str "oops")]) = .error (.badConversion "r_vy6"))
    ∧
    (run_setup (.map [("unknown_key", .str "oops"), ("steering", .map [("junk", .str "oops")])]) (.map [("junk", .str "oops")]) = .ok VehicleParameters.zero)
    )
  ∧ (∀ (vdoc tdoc : Yaml) (r : VehicleParameters),
       run_setup vdoc tdoc = .ok r →
       (∀ k ∈ vehicle_scalar_keys, ∀ nd, vdoc.find k = some nd →
          ∃ x, nd = Yaml.num x)
     ∧ (∀ n0, vdoc.find "steering" = some n0 → n0.isMap = true →
          ∀ k ∈ steering_keys, ∀ nd, n0.find k = some nd →
            ∃ x, nd = Yaml.num x)
     ∧ (∀ n0, vdoc.find "longitudinal" = some n0 → n0.isMap = true →
          ∀ k ∈ longitudinal_keys, ∀ nd, n0.find k = some nd →
            ∃ x, nd = Yaml.num x)
     ∧ (∀ n0, vdoc.find "trailer" = some n0 → n0.isMap = true →
          ∀ k ∈ trailer_keys, ∀ nd, n0.find k = some nd →
            ∃ x, nd = Yaml.num x)
     ∧ (∀ k ∈ tire_keys, ∀ nd, (tire_source tdoc).find k = some nd →
          ∃ x, nd = Yaml.num x)) := by
  refine ⟨⟨rfl, rfl, rfl, rfl, rfl, rfl, rfl, rfl, rfl, rfl, rfl, rfl, rfl, rfl, rfl, rfl, rfl, rfl, rfl, rfl, rfl, rfl, rfl, rfl, rfl, rfl, rfl, rfl, rfl, rfl, rfl, rfl, rfl, rfl, rfl, rfl, rfl, rfl, rfl, rfl, rfl, rfl, rfl, rfl, rfl, rfl, rfl, rfl, rfl, rfl, rfl, rfl, rfl, rfl, rfl, rfl, rfl, rfl, rfl, rfl, rfl, rfl, rfl, rfl, rfl, rfl, rfl, rfl, rfl, rfl, rfl, rfl, rfl, rfl, rfl, rfl, rfl, rfl, rfl, rfl, rfl, rfl, rfl, rfl, rfl, rfl, rfl, rfl⟩, ?_⟩
  intro vdoc tdoc r h
  rw [run_setup_eq] at h
  obtain ⟨p, st, lo, tr, ti, hp, hs, hl, ht, hti, -⟩ :=
    populate_ok_destruct vdoc tdoc r h
  exact ⟨load_vehicle_scalars_ok_numeric vdoc VehicleParameters.zero p hp,
         load_steering_ok_numeric vdoc _ st hs,
         load_longitudinal_ok_numeric vdoc _ lo hl,
         load_trailer_ok_numeric vdoc _ tr ht,
         load_tire_ok_numeric tdoc _ ti hti⟩

/-- Claim C7 witness: the general block applied to a successful concrete
resolution with `m`, `steering.min` and `p_cx1` present, at those three
present fields. -/
theorem claim_C7_witness :
    (∃ x, Yaml.num 2 = Yaml.num x)
  ∧ (∃ x, Yaml.num 5 = Yaml.num x)
  ∧ (∃ x, Yaml.num 7 = Yaml.num x) := by
  have G := claim_C7.2
    (.map [("m", .num 2), ("steering", .map [("min", .num 5)])])
    (.map [("p_cx1", .num 7)])
    { VehicleParameters.zero with
        m := 2
        steering := { SteeringParameters.zero with min := 5 }
        tire := { TireParameters.zero with p_cx1 := 7 } } rfl
  exact ⟨G.1 "m" (by decide) (.num 2) rfl,
         G.2.1 (.map [("min", .num 5)]) rfl rfl "min" (by decide) (.num 5) rfl,
         G.2.2.2.2 "p_cx1" (by decide) (.num 7) rfl⟩

/-- Claim C6: for each group in turn — `steering`, `longitudinal`,
`trailer` (vehicle documents agreeing everywhere except under that one
key) and `tire` (same vehicle document, any two tire documents) — the
two results agree on everything outside that group; conversely,
documents agreeing at the three group keys produce identical
steering, longitudinal, trailer and tire groups whatever their other
fields do; and the identically named keys `l`/`w` at top level and
inside `trailer` populate only their own scope. -/
theorem claim_C6 :
  (∀ (d1 d2 tdoc : Yaml) (r1 r2 : VehicleParameters),
       (∀ k, k ≠ "steering" → d1.find k = d2.find k) →
       run_setup d1 tdoc = .ok r1 → run_setup d2 tdoc = .ok r2 →
       { r1 with steering := SteeringParameters.zero }
         = { r2 with steering := SteeringParameters.zero })
  ∧ (∀ (d1 d2 tdoc : Yaml) (r1 r2 : VehicleParameters),
       (∀ k, k ≠ "longitudinal" → d1.find k = d2.find k) →
       run_setup d1 tdoc = .ok r1 → run_setup d2 tdoc = .ok r2 →
       { r1 with longitudinal := LongitudinalParameters.zero }
         = { r2 with longitudinal := LongitudinalParameters.zero })
  ∧ (∀ (d1 d2 tdoc : Yaml) (r1 r2 : VehicleParameters),
       (∀ k, k ≠ "trailer" → d1.find k = d2.find k) →
       run_setup d1 tdoc = .ok r1 → run_setup d2 tdoc = .ok r2 →
       { r1 with trailer := TrailerParameters.zero }
         = { r2 with trailer := TrailerParameters.zero })
  ∧ (∀ (vdoc t1 t2 : Yaml) (r1 r2 : VehicleParameters),
       run_setup vdoc t1 = .ok r1 → run_setup vdoc t2 = .ok r2 →
       { r1 with tire := TireParameters.zero }
         = { r2 with tire := TireParameters.zero })
  ∧ (∀ (d1 d2 tdoc : Yaml) (r1 r2 : VehicleParameters),
       d1.find "steering" = d2.find "steering" →
       d1.find "longitudinal" = d2.find "longitudinal" →
       d1.find "trailer" = d2.find "trailer" →
       run_setup d1 tdoc = .ok r1 → run_setup d2 tdoc = .ok r2 →
       r1.steering = r2.steering ∧ r1.longitudinal = r2.longitudinal ∧
       r1.trailer = r2.trailer ∧ r1.tire = r2.tire)
  ∧ (∀ a b : Rat,
       run_setup (.map [("l", .num a), ("w", .num b)]) (.map [])
         = .ok { VehicleParameters.zero with l := a, w := b }
     ∧ run_setup (.map [("trailer", .map [("l", .num a), ("w", .num b)])]) (.map [])
         = .ok { VehicleParameters.zero with
             trailer := { TrailerParameters.zero with l := a, w := b } }) := by
  refine ⟨?_, ?_, ?_, ?_, ?_, fun a b => ⟨rfl, rfl⟩⟩
  · intro d1 d2 tdoc r1 r2 hk h1 h2
    rw [run_setup_eq] at h1 h2
    obtain ⟨p1, st1, lo1, tr1, ti1, hp1, hs1, hl1, ht1, hti1, hr1⟩ :=
      populate_ok_destruct d1 tdoc r1 h1
    obtain ⟨p2, st2, lo2, tr2, ti2, hp2, hs2, hl2, ht2, hti2, hr2⟩ :=
      populate_ok_destruct d2 tdoc r2 h2
    have hne : ∀ k ∈ vehicle_scalar_keys, k ≠ "steering" := by decide
    rw [load_vehicle_scalars_congr d1 d2 VehicleParameters.zero
      (fun k hk0 => hk k (hne k hk0))] at hp1
    rw [hp1] at hp2
    injection hp2 with hp2
    subst hp2
    rw [load_longitudinal_congr d1 d2 _ (hk "longitudinal" (by decide))] at hl1
    rw [hl1] at hl2
    injection hl2 with hl2
    subst hl2
    rw [load_trailer_congr d1 d2 _ (hk "trailer" (by decide))] at ht1
    rw [ht1] at ht2
    injection ht2 with ht2
    subst ht2
    rw [hti1] at hti2
    injection hti2 with hti2
    subst hti2
    rw [hr1, hr2]
  · intro d1 d2 tdoc r1 r2 hk h1 h2
    rw [run_setup_eq] at h1 h2
    obtain ⟨p1, st1, lo1, tr1, ti1, hp1, hs1, hl1, ht1, hti1, hr1⟩ :=
      populate_ok_destruct d1 tdoc r1 h1
    obtain ⟨p2, st2, lo2, tr2, ti2, hp2, hs2, hl2, ht2, hti2, hr2⟩ :=
      populate_ok_destruct d2 tdoc r2 h2
    have hne : ∀ k ∈ vehicle_scalar_keys, k ≠ "longitudinal" := by decide
    rw [load_vehicle_scalars_congr d1 d2 VehicleParameters.zero
      (fun k hk0 => hk k (hne k hk0))] at hp1
    rw [hp1] at hp2
    injection hp2 with hp2
    subst hp2
    rw [load_steering_congr d1 d2 _ (hk "steering" (by decide))] at hs1
    rw [hs1] at hs2
    injection hs2 with hs2
    subst hs2
    rw [load_trailer_congr d1 d2 _ (hk "trailer" (by decide))] at ht1
    rw [ht1] at ht2
    injection ht2 with ht2
    subst ht2
    rw [hti1] at hti2
    injection hti2 with hti2
    subst hti2
    rw [hr1, hr2]
  · intro d1 d2 tdoc r1 r2 hk h1 h2
    rw [run_setup_eq] at h1 h2
    obtain ⟨p1, st1, lo1, tr1, ti1, hp1, hs1, hl1, ht1, hti1, hr1⟩ :=
      populate_ok_destruct d1 tdoc r1 h1
    obtain ⟨p2, st2, lo2, tr2, ti2, hp2, hs2, hl2, ht2, hti2, hr2⟩ :=
      populate_ok_destruct d2 tdoc r2 h2
    have hne : ∀ k ∈ vehicle_scalar_keys, k ≠ "trailer" := by decide
    rw [load_vehicle_scalars_congr d1 d2 VehicleParameters.zero
      (fun k hk0 => hk k (hne k hk0))] at hp1
    rw [hp1] at hp2
    injection hp2 with hp2
    subst hp2
    rw [load_steering_congr d1 d2 _ (hk "steering" (by decide))] at hs1
    rw [hs1] at hs2
    injection hs2 with hs2
    subst hs2
    rw [load_longitudinal_congr d1 d2 _ (hk "longitudinal" (by decide))] at hl1
    rw [hl1] at hl2
    injection hl2 with hl2
    subst hl2
    rw [hti1] at hti2
    injection hti2 with hti2
    subst hti2
    rw [hr1, hr2]
  · intro vdoc t1 t2 r1 r2 h1 h2
    rw [run_setup_eq] at h1 h2
    obtain ⟨p1, st1, lo1, tr1, ti1, hp1, hs1, hl1, ht1, hti1, hr1⟩ :=
      populate_ok_destruct vdoc t1 r1 h1
    obtain ⟨p2, st2, lo2, tr2, ti2, hp2, hs2, hl2, ht2, hti2, hr2⟩ :=
      populate_ok_destruct vdoc t2 r2 h2
    rw [hp1] at hp2
    injection hp2 with hp2
    subst hp2
    rw [hs1] at hs2
    injection hs2 with hs2
    subst hs2
    rw [hl1] at hl2
    injection hl2 with hl2
    subst hl2
    rw [ht1] at ht2
    injection ht2 with ht2
    subst ht2
    rw [hr1, hr2]
  · intro d1 d2 tdoc r1 r2 hst hlo htr h1 h2
    rw [run_setup_eq] at h1 h2
    obtain ⟨p1, st1, lo1, tr1, ti1, hp1, hs1, hl1, ht1, hti1, hr1⟩ :=
      populate_ok_destruct d1 tdoc _ h1
    obtain ⟨p2, st2, lo2, tr2, ti2, hp2, hs2, hl2, ht2, hti2, hr2⟩ :=
      populate_ok_destruct d2 tdoc _ h2
    obtain ⟨g1s, g1l, g1ti, g1t⟩ :=
      load_vehicle_scalars_groups d1 VehicleParameters.zero p1 hp1
    obtain ⟨g2s, g2l, g2ti, g2t⟩ :=
      load_vehicle_scalars_groups d2 VehicleParameters.zero p2 hp2
    rw [g1s] at hs1
    rw [g2s] at hs2
    rw [load_steering_congr d1 d2 _ hst] at hs1
    rw [hs1] at hs2
    injection hs2 with hs2
    rw [g1l] at hl1
    rw [g2l] at hl2
    rw [load_longitudinal_congr d1 d2 _ hlo] at hl1
    rw [hl1] at hl2
    injection hl2 with hl2
    rw [g1t] at ht1
    rw [g2t] at ht2
    rw [load_trailer_congr d1 d2 _ htr] at ht1
    rw [ht1] at ht2
    injection ht2 with ht2
    rw [g1ti] at hti1
    rw [g2ti] at hti2
    rw [hti1] at hti2
    injection hti2 with hti2
    rw [hr1, hr2]
    exact ⟨hs2, hl2, ht2, hti2⟩

/-- Claim C6 witness: the four frame conjuncts applied to documents that
set one field of each group (`steering.min`, `longitudinal.a_max`,
`trailer.l_wb`, tire `p_cx1`) against the empty document, and the
group-identity conjunct applied to documents differing only in the
top-level scalar `m`. -/
theorem claim_C6_witness :
    ({ ({ VehicleParameters.zero with
          steering := { SteeringParameters.zero with min := 5 } }) with
        steering := SteeringParameters.zero }
      = { VehicleParameters.zero with steering := SteeringParameters.zero })
  ∧ ({ ({ VehicleParameters.zero with
          longitudinal := { LongitudinalParameters.zero with a_max := 4 } }) with
        longitudinal := LongitudinalParameters.zero }
      = { VehicleParameters.zero with longitudinal := LongitudinalParameters.zero })
  ∧ ({ ({ VehicleParameters.zero with
          trailer := { TrailerParameters.zero with l_wb := 6 } }) with
        trailer := TrailerParameters.zero }
      = { VehicleParameters.zero with trailer := TrailerParameters.zero })
  ∧ ({ ({ VehicleParameters.zero with
          tire := { TireParameters.zero with p_cx1 := 1 } }) with
        tire := TireParameters.zero }
      = { VehicleParameters.zero with tire := TireParameters.zero })
  ∧ (({ VehicleParameters.zero with m := 2 } : VehicleParameters).steering
        = ({ VehicleParameters.zero with m := 3 } : VehicleParameters).steering
    ∧ ({ VehicleParameters.zero with m := 2 } : VehicleParameters).longitudinal
        = ({ VehicleParameters.zero with m := 3 } : VehicleParameters).longitudinal
    ∧ ({ VehicleParameters.zero with m := 2 } : VehicleParameters).trailer
        = ({ VehicleParameters.zero with m := 3 } : VehicleParameters).trailer
    ∧ ({ VehicleParameters.zero with m := 2 } : VehicleParameters).tire
        = ({ VehicleParameters.zero with m := 3 } : VehicleParameters).tire) :=
  ⟨claim_C6.1 (.map [("steering", .map [("min", .num 5)])]) (.map []) (.map [])
      { VehicleParameters.zero with
        steering := { SteeringParameters.zero with min := 5 } }
      VehicleParameters.zero
      (by
        intro k hk0
        simp only [Yaml.find, List.lookup, List.lookup_nil]
        rw [show (k == "steering") = false from beq_eq_false_iff_ne.mpr hk0])
      rfl rfl,
   claim_C6.2.1 (.map [("longitudinal", .map [("a_max", .num 4)])]) (.map [])
      (.map [])
      { VehicleParameters.zero with
        longitudinal := { LongitudinalParameters.zero with a_max := 4 } }
      VehicleParameters.zero
      (by
        intro k hk0
        simp only [Yaml.find, List.lookup, List.lookup_nil]
        rw [show (k == "longitudinal") = false from beq_eq_false_iff_ne.mpr hk0])
      rfl rfl,
   claim_C6.2.2.1 (.map [("trailer", .map [("l_wb", .num 6)])]) (.map []) (.map [])
      { VehicleParameters.zero with
        trailer := { TrailerParameters.zero with l_wb := 6 } }
      VehicleParameters.zero
      (by
        intro k hk0
        simp only [Yaml.find, List.lookup, List.lookup_nil]
        rw [show (k == "trailer") = false from beq_eq_false_iff_ne.mpr hk0])
      rfl rfl,
   claim_C6.2.2.2.1 (.map []) (.map [("p_cx1", .num 1)]) (.map [])
      { VehicleParameters.zero with
        tire := { TireParameters.zero with p_cx1 := 1 } }
      VehicleParameters.zero rfl rfl,
   claim_C6.2.2.2.2.1 (.map [("m", .num 2)]) (.map [("m", .num 3)]) (.map [])
     { VehicleParameters.zero with m := 2 } { VehicleParameters.zero with m := 3 }
     rfl rfl rfl rfl rfl⟩

/-- Claim C8: the engine consults the filesystem only at the two resolved
paths; the vehicle path is `root/vehicle/parameters_vehicle<id>.yaml` with
the id printed in plain decimal (no zero-padding, negative ids allowed);
the tire path is `root/tire/parameters_tire.yaml` with no id in it; and
the root is the compiled-in `"parameters"` exactly when `dir_params` is
empty, otherwise `dir_params` itself. -/
theorem claim_C8 :
    (∀ (f1 f2 : FileSystem) (vehicle_id : Int) (dir_params : String),
       f1.file_exists (vehicle_yaml_path dir_params vehicle_id)
         = f2.file_exists (vehicle_yaml_path dir_params vehicle_id) →
       f1.file_exists (tire_yaml_path dir_params)
         = f2.file_exists (tire_yaml_path dir_params) →
       f1.load_file (vehicle_yaml_path dir_params vehicle_id)
         = f2.load_file (vehicle_yaml_path dir_params vehicle_id) →
       f1.load_file (tire_yaml_path dir_params)
         = f2.load_file (tire_yaml_path dir_params) →
       setup_vehicle_parameters f1 vehicle_id dir_params
         = setup_vehicle_parameters f2 vehicle_id dir_params)
  ∧ vehicle_yaml_path "" 7 = "parameters/vehicle/parameters_vehicle7.yaml"
  ∧ vehicle_yaml_path "" 0 = "parameters/vehicle/parameters_vehicle0.yaml"
  ∧ vehicle_yaml_path "" 12 = "parameters/vehicle/parameters_vehicle12.yaml"
  ∧ vehicle_yaml_path "" (-3) = "parameters/vehicle/parameters_vehicle-3.yaml"
  ∧ vehicle_yaml_path "custom" 2 = "custom/vehicle/parameters_vehicle2.yaml"
  ∧ tire_yaml_path "" = "parameters/tire/parameters_tire.yaml"
  ∧ tire_yaml_path "custom" = "custom/tire/parameters_tire.yaml"
  ∧ param_root "" = "parameters"
  ∧ (∀ dir_params : String, dir_params ≠ "" → param_root dir_params = dir_params)
  ∧ (∀ (dir_params : String) (vehicle_id : Int),
       vehicle_yaml_path dir_params vehicle_id
         = pathAppend (pathAppend (param_root dir_params) "vehicle")
             ("parameters_vehicle" ++ toString vehicle_id ++ ".yaml")
     ∧ tire_yaml_path dir_params
         = pathAppend (pathAppend (param_root dir_params) "tire")
             "parameters_tire.yaml") := by
  refine ⟨?_, rfl, rfl, rfl, rfl, rfl, rfl, rfl, rfl, ?_, fun _ _ => ⟨rfl, rfl⟩⟩
  · intro f1 f2 vehicle_id dir_params h1 h2 h3 h4
    simp only [setup_vehicle_parameters, h1, h2, h3, h4]
  · intro dir_params h
    simp [param_root, h]

/-- Claim C8 witness: the path-consultation part applied to two concrete
filesystems agreeing on the two resolved default-root paths for vehicle
id 1, and the root-selection part applied to `"custom"`. -/
theorem claim_C8_witness :
    (setup_vehicle_parameters ⟨fun _ => true, fun _ => .ok (.map [])⟩ 1 ""
      = setup_vehicle_parameters
          ⟨fun p => p == "parameters/vehicle/parameters_vehicle1.yaml"
              || p == "parameters/tire/parameters_tire.yaml",
           fun p => if p == "zzz" then .error (.parseFailure "e")
              else .ok (.map [])⟩ 1 "")
  ∧ param_root "custom" = "custom" :=
  ⟨claim_C8.1 ⟨fun _ => true, fun _ => .ok (.map [])⟩
      ⟨fun p => p == "parameters/vehicle/parameters_vehicle1.yaml"
          || p == "parameters/tire/parameters_tire.yaml",
       fun p => if p == "zzz" then .error (.parseFailure "e")
          else .ok (.map [])⟩ 1 "" rfl rfl rfl rfl,
   (claim_C8.2.2.2.2.2.2.2.2.2.1) "custom" (by decide)⟩

/-- Claim C9: each of the three nested vehicle-document groups is left at
its incoming value (hence at defaults) with no error whenever its key is
absent or its value is not a map; a document with non-map values at all
three keys resolves to the all-zero structure. -/
theorem claim_C9 :
    (∀ (root : Yaml) (s : SteeringParameters),
       (∀ n, root.find "steering" = some n → n.isMap = false) →
       load_steering root s = .ok s)
  ∧ (∀ (root : Yaml) (lp : LongitudinalParameters),
       (∀ n, root.find "longitudinal" = some n → n.isMap = false) →
       load_longitudinal root lp = .ok lp)
  ∧ (∀ (root : Yaml) (tr : TrailerParameters),
       (∀ n, root.find "trailer" = some n → n.isMap = false) →
       load_trailer root tr = .ok tr)
  ∧ run_setup (.map [("steering", .num 1), ("longitudinal", .str "x"),
       ("trailer", .num 3)]) (.map []) = .ok VehicleParameters.zero := by
  refine ⟨?_, ?_, ?_, rfl⟩
  · intro root s h
    cases hf : root.find "steering" with
    | none => simp [load_steering, hf]
    | some n => simp [load_steering, hf, h n hf]
  · intro root lp h
    cases hf : root.find "longitudinal" with
    | none => simp [load_longitudinal, hf]
    | some n => simp [load_longitudinal, hf, h n hf]
  · intro root tr h
    cases hf : root.find "trailer" with
    | none => simp [load_trailer, hf]
    | some n => simp [load_trailer, hf, h n hf]

/-- Claim C9 witness: the three group lemmas applied to a document whose
group keys hold scalars (a non-map value) and to the empty document. -/
theorem claim_C9_witness :
    (load_steering (.map [("steering", .num 5)]) SteeringParameters.zero
      = .ok SteeringParameters.zero)
  ∧ (load_longitudinal (.map []) LongitudinalParameters.zero
      = .ok LongitudinalParameters.zero)
  ∧ (load_trailer (.map [("trailer", .str "x")]) TrailerParameters.zero
      = .ok TrailerParameters.zero) :=
  ⟨claim_C9.1 (.map [("steering", .num 5)]) SteeringParameters.zero
     (by
       intro n h
       have h2 : some (Yaml.num 5) = some n := h
       injection h2 with h2
       rw [← h2]
       rfl),
   claim_C9.2.1 (.map []) LongitudinalParameters.zero
     (by intro n h; exact Option.noConfusion h),
   claim_C9.2.2.1 (.map [("trailer", .str "x")]) TrailerParameters.zero
     (by
       intro n h
       have h2 : some (Yaml.str "x") = some n := h
       injection h2 with h2
       rw [← h2]
       rfl)⟩

end VeloxModels
